import Mathlib

/-!
The firmware-update command line tool `rs-fw-update`.

A shallow embedding of `tools/fw-update/rs-fw-update.cpp`.

* The device API (`rs2::device`, `rs2::context`) and the file streams are not part of the
  tool; what they answer is read from a `World` record, so that every statement below is
  quantified over all their possible answers.
* Console output and every call made on a device are recorded, in program order, in a list of
  `Event`s; `main` returns that list together with the exit status.
* The devices-changed callback runs on a thread of the device API.  The batches of newly
  appeared devices it is handed are read from `World.new_devices`, indexed by the point of the
  main thread's progress at which the callback runs.
* An `rs2::error` thrown by the device API is an answer `none` (or `false` for a call without
  a result); it is propagated to the handler of `main` as in the source.
-/

namespace FwUpdate

/-- The contents of a `std::vector<uint8_t>`. -/
abbrev Bytes := List Nat

def EXIT_SUCCESS : Nat := 0

def EXIT_FAILURE : Nat := 1

/-- Seconds every `cv.wait_for` waits at most.  The model does not measure time: the batches
that arrive inside the window are an input (`World.new_devices`). -/
def WAIT_FOR_DEVICE_TIMEOUT : Nat := 15

/-- The attributes of `rs2_camera_info` the tool reads. -/
inductive rs2_camera_info
  | NAME
  | SERIAL_NUMBER
  | FIRMWARE_VERSION
  | USB_TYPE_DESCRIPTOR
  | PRODUCT_ID
  | FIRMWARE_UPDATE_ID
  | DFU_DEVICE_PATH
  deriving DecidableEq, Repr

/-- One `rs2::device` handle as the tool sees it.  An attribute is `none` when the device does
not support it. `handle` tells two handles with equal attributes apart. -/
structure Device where
  handle : Nat
  is_update_device : Bool
  is_updatable : Bool
  name : Option String
  serial_number : Option String
  firmware_version : Option String
  usb_type_descriptor : Option String
  product_id : Option String
  firmware_update_id : Option String
  dfu_device_path : Option String
  deriving DecidableEq, Repr

/-- The call `d.get_info(info)`: `none` stands for the `rs2::error` the call raises on an
attribute the device does not support. -/
def Device.get_info (d : Device) : rs2_camera_info → Option String
  | .NAME => d.name
  | .SERIAL_NUMBER => d.serial_number
  | .FIRMWARE_VERSION => d.firmware_version
  | .USB_TYPE_DESCRIPTOR => d.usb_type_descriptor
  | .PRODUCT_ID => d.product_id
  | .FIRMWARE_UPDATE_ID => d.firmware_update_id
  | .DFU_DEVICE_PATH => d.dfu_device_path

/-- The call `d.supports(info)`. -/
def Device.supports (d : Device) (info : rs2_camera_info) : Bool :=
  (d.get_info info).isSome

/-- What the run does that can be observed: console lines and calls on devices and files. -/
inductive Event
  | cout (text : String)
  | cerr (failed_function : String) (what : String)
  | print_device_info (d : Device)
  | list_entry (counter : Nat) (d : Device)
  | create_flash_backup (d : Device)
  | file_write (path : String) (data : Bytes)
  | write_fw_to_mipi_device (d : Device) (fw_image : Bytes)
  | update_unsigned (d : Device) (fw_image : Bytes)
  | check_firmware_compatibility (d : Device) (fw_image : Bytes)
  | enter_update_state (d : Device)
  | wait_for_fw_update_device (update_serial_number : String)
  | update (fwu_dev : Device) (fw_image : Bytes)
  deriving DecidableEq, Repr

/-- The points of the main thread's progress at which the devices-changed callback can run. -/
inductive Point
  | registered
  | visiting (i : Nat)
  | update_wait
  | reconnect_wait
  | recovering
  | recovery_wait
  deriving DecidableEq, Repr

/-- A `std::ifstream` opened by `read_fw_file`: whether it opened, the bytes of the file, how
many of them `read` delivered, and `good()` after the read. -/
structure IFStream where
  is_open : Bool
  contents : Bytes
  gcount : Nat
  good : Bool

/-- The answers of everything outside the tool. -/
structure World where
  /-- The result of `ctx.query_devices(RS2_PRODUCT_LINE_DEPTH)`. -/
  query_devices : List Device
  /-- The result of `ctx.query_devices()` in `list_devices`. -/
  query_all_devices : List Device
  /-- The result of `ctx.query_devices()` after the update. -/
  query_devices_after : List Device
  ifstream : String → IFStream
  ofstream_is_open : String → Bool
  ofstream_good : String → Bytes → Bool
  create_flash_backup : Device → Option Bytes
  update_unsigned : Device → Bytes → Bool
  check_firmware_compatibility : Device → Bytes → Option Bool
  enter_update_state : Device → Bool
  update : Device → Bytes → Bool
  new_devices : Point → List (List Device)

/-- The command line after `cmd.parse`: a `SwitchArg` is its value, a `ValueArg` is `none`
when not set. -/
structure Args where
  list_devices_arg : Bool
  recover_arg : Bool
  unsigned_arg : Bool
  backup_arg : Option String
  file_arg : Option String
  serial_number_arg : Option String

/-- The value `getValue()` of a string argument, whose default is the empty string. -/
def getValue (v : Option String) : String := v.getD ""

/-- The result of a run of `main`. -/
structure Run where
  out : List Event
  status : Nat
  deriving DecidableEq, Repr

/-- The variables of `main` the update path and its callback share. -/
structure State where
  out : List Event
  update_serial_number : String
  new_device : Option Device
  new_fw_update_device : Option Device
  device_found : Bool
  done : Bool
  deriving DecidableEq, Repr

def State.emit (s : State) (e : Event) : State :=
  { s with out := s.out ++ [e] }

/-- How one pass through the body of the device loop ends. -/
inductive Flow
  | next (s : State)
  | brk (s : State)
  | ret (s : State) (code : Nat)
  deriving DecidableEq, Repr

/-- An `rs2::error` reaches the handler of `main`: it is reported and the run fails. -/
def rs2_error (s : State) (failed_function what : String) : Flow :=
  .ret (s.emit (.cerr failed_function what)) EXIT_FAILURE

/-- The buffer `rv` after `file.read`: the bytes delivered, then the zeroes of `resize`. -/
def IFStream.buffer (f : IFStream) : Bytes :=
  f.contents.take f.gcount ++ List.replicate (f.contents.length - f.gcount) 0

def read_fw_file (w : World) (file_path : String) : Bytes :=
  let file := w.ifstream file_path
  if file.is_open then
    if !file.good then [] else file.buffer
  else []

def read_firmware_data (w : World) (is_set : Bool) (file_path : String) : Except String Bytes :=
  if !is_set then .error "Firmware file must be selected"
  else
    let fw_image := read_fw_file w file_path
    if fw_image.length = 0 then .error "Failed to read firmware file"
    else .ok fw_image

/-- The function `update`, appending to the output so far; the flag is `false` when
`fwu_dev.update` throws (the last line is then not printed). -/
def update (w : World) (fwu_dev : Device) (fw_image : Bytes) (out : List Event) :
    List Event × Bool :=
  let out := out ++ [.cout "Firmware update started. Please don't disconnect device!",
    .update fwu_dev fw_image]
  if w.update fwu_dev fw_image then (out ++ [.cout "Firmware update done"], true)
  else (out, false)

def list_entries : Nat → List Device → List Event
  | _, [] => []
  | counter, d :: ds => .list_entry (counter + 1) d :: list_entries (counter + 1) ds

def list_devices (w : World) : List Event :=
  let devs := w.query_all_devices
  if devs.length = 0 then [.cout "There are no connected devices"]
  else .cout "Connected devices:" :: list_entries 0 devs

/-- The function `write_fw_to_mipi_device`, called by `main` in a `return` statement: its
result is the exit status. A `get_info` of the device path that throws reaches the handler of
`main`. -/
def write_fw_to_mipi_device (w : World) (dev : Device) (fw_image : Bytes) (s : State) : Flow :=
  let s := (s.emit (.write_fw_to_mipi_device dev fw_image)).emit
    (.cout "Update can take up to 2 minutes")
  match dev.get_info .DFU_DEVICE_PATH with
  | none => rs2_error s "rs2_get_device_info" ""
  | some path =>
    if w.ofstream_is_open path then
      let s := s.emit (.file_write path fw_image)
      if !w.ofstream_good path fw_image then
        .ret (s.emit (.cout "Firmware Update failed - write to device error")) EXIT_FAILURE
      else .ret (s.emit (.cout "Firmware update done")) EXIT_SUCCESS
    else
      .ret (s.emit (.cout "Firmware Update failed - wrong path or permissions missing"))
        EXIT_FAILURE

/-- The function `is_mipi_device`; `none` when `get_info` of the product id throws. -/
def is_mipi_device (dev : Device) : Option Bool :=
  let usb_type : String :=
    if dev.supports .USB_TYPE_DESCRIPTOR then getValue (dev.get_info .USB_TYPE_DESCRIPTOR)
    else "unknown"
  match dev.get_info .PRODUCT_ID with
  | none => none
  | some product_id =>
    let d457_device := decide (product_id = "ABCD")
    some (d457_device && decide (usb_type = "unknown"))

/-- The test `usb_type.find(pat) != std::string::npos`. -/
def has_substring (pat s : List Char) : Bool :=
  s.tails.any fun t => pat.isPrefixOf t

/-- The devices-changed callback of the update path, run on one batch of new devices.  A
`get_info` that throws ends the callback where it stands. -/
def devices_changed_callback : List Device → State → State
  | [], s => s
  | d :: ds, s =>
    if d.is_update_device then
      match d.get_info .FIRMWARE_UPDATE_ID with
      | none => s
      | some id =>
        if id = s.update_serial_number then
          devices_changed_callback ds { s with new_fw_update_device := some d }
        else devices_changed_callback ds { s with new_device := some d }
    else devices_changed_callback ds { s with new_device := some d }

/-- The callback run on the batches of one point, in order. -/
def deliver (s : State) (batches : List (List Device)) : State :=
  batches.foldl (fun s batch => devices_changed_callback batch s) s

/-- The call `cv.wait_for(lk, timeout, pred)`: it returns at once when `pred` holds; otherwise
the callback runs on the batches that arrive until the waiter is back. The result of the call
is `pred` of the state returned. -/
def wait_for (pred : State → Bool) (batches : List (List Device)) (s : State) : State :=
  if pred s then s else deliver s batches

/-- The backup block of the loop body (`if( backup_arg.isSet() )`); the flag is `false` when
`create_flash_backup` throws. Both branches of the terminal test make the same call. -/
def backup_flash (w : World) (temp : String) (d : Device) (s : State) : State × Bool :=
  let s := (s.emit (.cout "Trying to back-up device flash")).emit (.create_flash_backup d)
  match w.create_flash_backup d with
  | none => (s, false)
  | some flash =>
    if flash.isEmpty then (s.emit (.cout "Backup flash is not supported"), true)
    else
      let s := if w.ofstream_is_open temp then s.emit (.file_write temp flash) else s
      if !(w.ofstream_is_open temp && w.ofstream_good temp flash) then
        (s.emit (.cout "Creating backup file failed"), true)
      else (s, true)

/-- The signed branch of the firmware block: compatibility check, enter update state, wait for
the device in update mode, transfer. -/
def update_signed (w : World) (d : Device) (fw_image : Bytes) (s : State) : Flow :=
  let s := s.emit (.check_firmware_compatibility d fw_image)
  match w.check_firmware_compatibility d fw_image with
  | none => rs2_error s "rs2_check_firmware_compatibility" ""
  | some false =>
    match d.get_info .NAME with
    | none => rs2_error s "rs2_get_device_info" ""
    | some name =>
      .ret (s.emit (.cout ("This firmware version is not compatible with " ++ name)))
        EXIT_FAILURE
  | some true =>
    let s := s.emit (.enter_update_state d)
    if !w.enter_update_state d then rs2_error s "rs2_enter_update_state" ""
    else
      let s := s.emit (.wait_for_fw_update_device s.update_serial_number)
      let s := wait_for (fun s => s.new_fw_update_device.isSome) (w.new_devices .update_wait) s
      match s.new_fw_update_device with
      | none => .ret (s.emit (.cout "Failed to locate a device in FW update mode")) EXIT_FAILURE
      | some new_fw_update_device =>
        let updated := update w new_fw_update_device fw_image s.out
        if !updated.2 then rs2_error { s with out := updated.1 } "rs2_update_firmware" ""
        else .brk { s with out := updated.1, done := true }

/-- The firmware block of the loop body (`if( file_arg.isSet() )`). -/
def fw_dfu (a : Args) (w : World) (d : Device) (s : State) : Flow :=
  match read_firmware_data w a.file_arg.isSome (getValue a.file_arg) with
  | .error what => rs2_error s "" what
  | .ok fw_image =>
    let s := (s.emit (.cout "Updating device FW: ")).emit (.print_device_info d)
    match is_mipi_device d with
    | none => rs2_error s "rs2_get_device_info" ""
    | some true =>
      if a.unsigned_arg then
        .ret (s.emit (.cout "Only signed FW is currently supported for MIPI devices"))
          EXIT_FAILURE
      else write_fw_to_mipi_device w d fw_image s
    | some false =>
      if a.unsigned_arg then
        let s := (s.emit (.cout "Firmware update started. Please don't disconnect device!")).emit
          (.update_unsigned d fw_image)
        if !w.update_unsigned d fw_image then rs2_error s "rs2_update_firmware_unsigned" ""
        else .next (s.emit (.cout "Firmware update done"))
      else update_signed w d fw_image s

/-- The warning printed for a device on a USB 2 port. -/
def usb2_warning (d : Device) (s : State) : State :=
  if d.supports .USB_TYPE_DESCRIPTOR then
    let usb_type := getValue (d.get_info .USB_TYPE_DESCRIPTOR)
    if has_substring "2.".toList usb_type.toList then
      s.emit (.cout ("Warning! the camera is connected via USB 2 port, in case the process " ++
        "fails, connect the camera to a USB 3 port and try again"))
    else s
  else s

/-- The loop body from `device_found = true` on, run on the selected device `d`: the backup
block, then the firmware block. -/
def act_on (a : Args) (w : World) (d : Device) (s : State) : Flow :=
  let backed_up : State × Bool :=
    match a.backup_arg with
    | some temp => backup_flash w temp d s
    | none => (s, true)
  if !backed_up.2 then rs2_error backed_up.1 "rs2_create_flash_backup" ""
  else if a.file_arg.isSome then fw_dfu a w d backed_up.1
  else .next backed_up.1

/-- The body of `for( auto&& d : devs )` in the update path, for the device at index `i` of
an enumeration of `devs_size` devices. The callback runs on the batches of `Point.visiting i`
once `update_serial_number` has been assigned. -/
def loop_body (a : Args) (w : World) (devs_size : Nat) (i : Nat) (d : Device) (s : State) :
    Flow :=
  if !d.is_updatable ||
      !(d.supports .SERIAL_NUMBER && d.supports .FIRMWARE_UPDATE_ID) then .next s
  else
    let s := usb2_warning d s
    match d.get_info .FIRMWARE_UPDATE_ID with
    | none => rs2_error s "rs2_get_device_info" ""
    | some id =>
      let s := deliver { s with update_serial_number := id } (w.new_devices (.visiting i))
      match d.get_info .SERIAL_NUMBER with
      | none => rs2_error s "rs2_get_device_info" ""
      | some sn =>
        if sn ≠ getValue a.serial_number_arg ∧ devs_size ≠ 1 then .next s
        else act_on a w d { s with device_found := true }

/-- The loop `for( auto&& d : devs )`: `Flow.next` when it ran to its end or was left by
`break`, `Flow.ret` when the body returned from `main`. -/
def for_each_device (a : Args) (w : World) (devs_size : Nat) :
    Nat → List Device → State → Flow
  | _, [], s => .next s
  | i, d :: ds, s =>
    match loop_body a w devs_size i d s with
    | .next s => for_each_device a w devs_size (i + 1) ds s
    | .brk s => .next s
    | .ret s code => .ret s code

/-- The report printed after a signed update, over `ctx.query_devices()`. -/
def report_updated (a : Args) : List Device → List Event
  | [] => []
  | d :: ds =>
    let sn := if d.supports .SERIAL_NUMBER then getValue (d.get_info .SERIAL_NUMBER)
      else "unknown"
    if a.serial_number_arg.isSome && sn ≠ getValue a.serial_number_arg then report_updated a ds
    else
      let fw := if d.supports .FIRMWARE_VERSION then getValue (d.get_info .FIRMWARE_VERSION)
        else "unknown"
      .cout ("Device " ++ sn ++ " successfully updated to FW: " ++ fw) :: report_updated a ds

/-- The part of `main` after the device loop. -/
def after_loop (a : Args) (w : World) (devs_size : Nat) (s : State) : Run :=
  if !s.device_found then
    if a.serial_number_arg.isSome then
      ⟨s.out ++ [.cout "Couldn't find the requested serial number"], EXIT_FAILURE⟩
    else if devs_size = 1 then
      ⟨s.out ++ [.cout "Nothing to do, run again with -h for help"], EXIT_FAILURE⟩
    else ⟨s.out, EXIT_FAILURE⟩
  else
    let s := s.emit (.cout "Waiting for device to reconnect...")
    let s := wait_for (fun s => !s.done || s.new_device.isSome) (w.new_devices .reconnect_wait) s
    if s.done then ⟨s.out ++ report_updated a w.query_devices_after, EXIT_SUCCESS⟩
    else ⟨s.out, EXIT_SUCCESS⟩

/-- How `main` goes on when the device loop is left: a `return` inside the loop ends the run,
otherwise the part after the loop follows. -/
def leave_loop (a : Args) (w : World) (devs_size : Nat) : Flow → Run
  | .ret s code => ⟨s.out, code⟩
  | .brk s => after_loop a w devs_size s
  | .next s => after_loop a w devs_size s

/-- The update path of `main` (from `// Update device` on), entered with the output so far. -/
def update_device (a : Args) (w : World) (out : List Event) : Run :=
  let s : State := ⟨out, "", none, none, false, false⟩
  let s := deliver s (w.new_devices .registered)
  let devs := w.query_devices
  if !a.serial_number_arg.isSome && devs.length > 1 then
    ⟨s.out ++ [.cout "More than one device is connected, serial number must be selected"],
      EXIT_FAILURE⟩
  else if devs.length = 1 && (devs.head?.map Device.is_update_device).getD false then
    ⟨s.out ++ [.cout "Device is in recovery mode, use -r to recover"], EXIT_FAILURE⟩
  else if devs.length = 0 then
    ⟨s.out ++ [.cout "No devices were found"], EXIT_FAILURE⟩
  else leave_loop a w devs.length (for_each_device a w devs.length 0 devs s)

/-- The devices-changed callback of the recovery path on one batch, as the new value of
`recovery_device_found`. A `get_info` that throws ends the callback where it stands. -/
def recovery_callback (update_serial_number : String) : List Device → Bool → Bool
  | [], recovery_device_found => recovery_device_found
  | d :: ds, recovery_device_found =>
    if d.is_update_device then recovery_callback update_serial_number ds recovery_device_found
    else
      match d.get_info .FIRMWARE_UPDATE_ID with
      | none => recovery_device_found
      | some recovery_sn =>
        if recovery_sn = update_serial_number then true
        else recovery_callback update_serial_number ds recovery_device_found

/-- The recovery callback run on the batches of one point, in order. -/
def deliver_recovery (update_serial_number : String) (recovery_device_found : Bool)
    (batches : List (List Device)) : Bool :=
  batches.foldl (fun found batch => recovery_callback update_serial_number batch found)
    recovery_device_found

/-- How the loop over the devices of the recovery path ends. -/
inductive RecoveryScan
  | finished (recovery_device : Option Device)
  | ambiguous
  | thrown
  deriving DecidableEq, Repr

/-- The loop `for (auto&& d : devs)` of the recovery path. -/
def find_recovery_device (selected_serial_number : String) :
    List Device → Option Device → RecoveryScan
  | [], recovery_device => .finished recovery_device
  | d :: ds, recovery_device =>
    if !d.is_update_device then find_recovery_device selected_serial_number ds recovery_device
    else
      match d.get_info .FIRMWARE_UPDATE_ID with
      | none => .thrown
      | some sn =>
        if !selected_serial_number.isEmpty && sn ≠ selected_serial_number then
          find_recovery_device selected_serial_number ds recovery_device
        else if recovery_device.isSome then .ambiguous
        else find_recovery_device selected_serial_number ds (some d)

/-- The recovery path of `main` (`// Recovery`), entered with the output so far. -/
def recover (a : Args) (w : World) (out : List Event) : Run :=
  match read_firmware_data w a.file_arg.isSome (getValue a.file_arg) with
  | .error what => ⟨out ++ [.cerr "" what], EXIT_FAILURE⟩
  | .ok fw_image =>
    let out := out ++ [.cout ("Update to FW: " ++ getValue a.file_arg)]
    match find_recovery_device (getValue a.serial_number_arg) w.query_devices none with
    | .thrown => ⟨out ++ [.cerr "rs2_get_device_info" ""], EXIT_FAILURE⟩
    | .ambiguous =>
      ⟨out ++ [.cout ("More than one recovery device is connected; " ++
        "serial number must be specified")], EXIT_FAILURE⟩
    | .finished none => ⟨out ++ [.cout "No recovery devices were found!"], EXIT_FAILURE⟩
    | .finished (some recovery_device) =>
      match recovery_device.get_info .FIRMWARE_UPDATE_ID with
      | none => ⟨out ++ [.cout "Failed to recover device"], EXIT_FAILURE⟩
      | some update_serial_number =>
        let out := out ++ [.cout "Recovering device: ", .print_device_info recovery_device]
        let updated := update w recovery_device fw_image out
        if !updated.2 then ⟨updated.1 ++ [.cout "Failed to recover device"], EXIT_FAILURE⟩
        else
          let out := updated.1 ++ [.cout "Waiting for new device..."]
          let recovery_device_found :=
            deliver_recovery update_serial_number false (w.new_devices .recovering)
          if !recovery_device_found &&
              !deliver_recovery update_serial_number recovery_device_found
                (w.new_devices .recovery_wait) then
            ⟨out ++ [.cout "... timed out!"], EXIT_FAILURE⟩
          else ⟨out ++ [.cout "Recovery done"], EXIT_SUCCESS⟩

/-- The function `main` after the command line has been parsed. -/
def main (a : Args) (w : World) : Run :=
  if !a.list_devices_arg && !a.recover_arg && !a.unsigned_arg &&
      !a.backup_arg.isSome && !a.file_arg.isSome && !a.serial_number_arg.isSome then
    ⟨.cout "Nothing to do, run again with -h for help" :: list_devices w, EXIT_SUCCESS⟩
  else if a.list_devices_arg then ⟨list_devices w, EXIT_SUCCESS⟩
  else if !a.file_arg.isSome && !a.backup_arg.isSome then
    ⟨[.cout "Nothing to do, run again with -h for help"], EXIT_FAILURE⟩
  else
    let out : List Event :=
      match a.serial_number_arg with
      | some selected_serial_number =>
        [.cout ("Search for device with serial number: " ++ selected_serial_number)]
      | none => []
    if a.recover_arg then recover a w out else update_device a w out


/-! ## Vocabulary of the statements -/

/-- A device the loop of the update path does not skip at its first test: it is update-capable
and exposes both a serial number and a firmware-update id. -/
def eligible (d : Device) : Bool :=
  d.is_updatable && (d.supports .SERIAL_NUMBER && d.supports .FIRMWARE_UPDATE_ID)

/-- The command line leads `main` into the update path: no listing, no recovery, and a
firmware file or a backup path is given. -/
def Args.update_requested (a : Args) : Bool :=
  !a.list_devices_arg && !a.recover_arg && (a.file_arg.isSome || a.backup_arg.isSome)

/-- The event is a call that reaches a device: a flash backup, a write to a file, a MIPI write,
an unsigned or signed transfer, a compatibility check or the switch to update mode. -/
def Event.touches_device : Event → Bool
  | .create_flash_backup _ => true
  | .file_write _ _ => true
  | .write_fw_to_mipi_device _ _ => true
  | .update_unsigned _ _ => true
  | .check_firmware_compatibility _ _ => true
  | .enter_update_state _ => true
  | .update _ _ => true
  | _ => false

/-- The device of the enumeration a call is made on. -/
def Event.acts_on : Event → Option Device
  | .create_flash_backup d => some d
  | .write_fw_to_mipi_device d _ => some d
  | .update_unsigned d _ => some d
  | .check_firmware_compatibility d _ => some d
  | .enter_update_state d => some d
  | _ => none

/-- The state a pass through the loop body leaves. -/
def Flow.state : Flow → State
  | .next s => s
  | .brk s => s
  | .ret s _ => s

/-- The output of `main` before the path is chosen: the line about the serial number. -/
def search_out (a : Args) : List Event :=
  match a.serial_number_arg with
  | some selected_serial_number =>
    [.cout ("Search for device with serial number: " ++ selected_serial_number)]
  | none => []

/-- The loop of the update path acts on `d`: it is eligible and its serial number is the one
asked for, or it is the only device connected (`devs_size` is the size of the enumeration). -/
def selected (a : Args) (devs_size : Nat) (d : Device) : Prop :=
  eligible d = true ∧
    (d.serial_number = some (getValue a.serial_number_arg) ∨ devs_size = 1)

/-- The firmware file of the command line loads as `fw_image`. -/
def loaded (a : Args) (w : World) (fw_image : Bytes) : Prop :=
  read_firmware_data w a.file_arg.isSome (getValue a.file_arg) = .ok fw_image

/-- A line on the console, standard output or standard error. -/
def Event.is_console : Event → Bool
  | .cout _ => true
  | .cerr _ _ => true
  | _ => false

/-- The conditions under which the loop body, run on the device `d`, makes each of its calls. -/
def guarded (a : Args) (w : World) (d : Device) : Event → Prop
  | .cout _ => True
  | .cerr _ _ => True
  | .list_entry _ _ => False
  | .print_device_info d' => d' = d ∧ ∃ fw, loaded a w fw
  | .create_flash_backup d' => d' = d ∧ a.backup_arg.isSome = true
  | .file_write path data =>
    (a.backup_arg = some path ∧ w.create_flash_backup d = some data) ∨
    (d.get_info .DFU_DEVICE_PATH = some path ∧ loaded a w data ∧
      is_mipi_device d = some true ∧ a.unsigned_arg = false)
  | .write_fw_to_mipi_device d' fw =>
    d' = d ∧ loaded a w fw ∧ is_mipi_device d = some true ∧ a.unsigned_arg = false
  | .update_unsigned d' fw =>
    d' = d ∧ loaded a w fw ∧ is_mipi_device d = some false ∧ a.unsigned_arg = true
  | .check_firmware_compatibility d' fw =>
    d' = d ∧ loaded a w fw ∧ is_mipi_device d = some false ∧ a.unsigned_arg = false
  | .enter_update_state d' =>
    d' = d ∧ is_mipi_device d = some false ∧ a.unsigned_arg = false ∧
      ∃ fw, loaded a w fw ∧ w.check_firmware_compatibility d fw = some true
  | .wait_for_fw_update_device update_serial_number =>
    d.firmware_update_id = some update_serial_number ∧
      is_mipi_device d = some false ∧ a.unsigned_arg = false ∧ w.enter_update_state d = true ∧
      ∃ fw, loaded a w fw ∧ w.check_firmware_compatibility d fw = some true
  | .update _ fw =>
    loaded a w fw ∧ is_mipi_device d = some false ∧ a.unsigned_arg = false ∧
      w.check_firmware_compatibility d fw = some true ∧ w.enter_update_state d = true

/-- The output `new` continues the output `old`, and every event added satisfies `P`. -/
def Ext (P : Event → Prop) (old new : List Event) : Prop :=
  old <+: new ∧ ∀ e ∈ new.drop old.length, P e

/-- The calls after which the loop body does not go on to the next device: the MIPI write and
the steps of the signed update. -/
def Event.ends_loop : Event → Bool
  | .write_fw_to_mipi_device _ _ => true
  | .check_firmware_compatibility _ _ => true
  | .enter_update_state _ => true
  | .wait_for_fw_update_device _ => true
  | .update _ _ => true
  | _ => false

/-- The points before any wait of the update path: the callback is registered, or the loop is
at one of the devices. -/
def Point.early : Point → Bool
  | .registered => true
  | .visiting _ => true
  | _ => false

/-- What the loop knows of the shared variables while it runs over `devs`:
`update_serial_number` is still empty or is the firmware-update id of an eligible device, and a
device in the update slot was reported at an early point, is in update mode and carried such
an id. -/
def Slots (w : World) (devs : List Device) (s : State) : Prop :=
  (s.update_serial_number = "" ∨
    ∃ d ∈ devs, eligible d = true ∧ d.firmware_update_id = some s.update_serial_number) ∧
  ∀ u, s.new_fw_update_device = some u →
    u.is_update_device = true ∧
    (∃ p, p.early = true ∧ ∃ batch ∈ w.new_devices p, u ∈ batch) ∧
    (u.firmware_update_id = some "" ∨
      ∃ d ∈ devs, eligible d = true ∧ u.firmware_update_id = d.firmware_update_id)

/-- The loop went from state `s` to state `s₁` without a step that ends it. -/
def Steady (w : World) (devs : List Device) (s s₁ : State) : Prop :=
  Ext (fun e => e.ends_loop = false) s.out s₁.out ∧
  s₁.done = s.done ∧
  (s.device_found = true → s₁.device_found = true) ∧
  (Slots w devs s → Slots w devs s₁)

/-- The four ways a pass of the loop body on `d` that starts in state `s` can end, after the
loop went on to some state `s₁`: it goes to the next device, it fails at once with one more
console line, or it hands over to the MIPI write or to the signed update. -/
def Shape (a : Args) (w : World) (devs : List Device) (d : Device) (f : Flow) (s : State) :
    Prop :=
  ∃ s₁, Steady w devs s s₁ ∧
    (f = .next s₁ ∨
     (∃ e, e.is_console = true ∧ f = .ret (s₁.emit e) EXIT_FAILURE) ∨
     (∃ fw, loaded a w fw ∧ f = write_fw_to_mipi_device w d fw s₁) ∨
     (∃ fw, loaded a w fw ∧ d.firmware_update_id = some s₁.update_serial_number ∧
        s₁.device_found = true ∧ f = update_signed w d fw s₁))

/-- The four ways the update path can end once its device loop is entered in state `s`, after
the loop went on to some state `s₁`: the loop runs to its end, the run fails at once with one
more console line, or it ends as the MIPI write or the signed update of a device `d` end. -/
def RunShape (a : Args) (w : World) (devs : List Device) (n : Nat) (r : Run) (s : State) :
    Prop :=
  ∃ s₁, Steady w devs s s₁ ∧
    (r = after_loop a w n s₁ ∨
     (∃ e, e.is_console = true ∧ r = ⟨s₁.out ++ [e], EXIT_FAILURE⟩) ∨
     (∃ d ∈ devs, ∃ fw, loaded a w fw ∧
        r = leave_loop a w n (write_fw_to_mipi_device w d fw s₁)) ∨
     (∃ d ∈ devs, ∃ fw, loaded a w fw ∧
        d.firmware_update_id = some s₁.update_serial_number ∧ s₁.device_found = true ∧
        r = leave_loop a w n (update_signed w d fw s₁)))

/-- The device in the update slot when the wait of the signed update, entered in state `s`, is
over; `none` when the wait times out. -/
def awaited_device (w : World) (s : State) : Option Device :=
  (wait_for (fun s => s.new_fw_update_device.isSome) (w.new_devices .update_wait)
    s).new_fw_update_device

/-- A pass of the loop body that leaves the run on the way to failure: it goes to the next
device without having found one, or it returns failure. -/
def Fails (f : Flow) (s : State) : Prop :=
  match f with
  | .next s' => s'.device_found = s.device_found
  | .brk _ => False
  | .ret _ code => code = EXIT_FAILURE

/-- The firmware file at `path` is unreadable or zero-length: it does not open, the stream is
not good after the read, or the file holds no byte. -/
def unreadable (w : World) (path : String) : Prop :=
  (w.ifstream path).is_open = false ∨ (w.ifstream path).good = false ∨
    (w.ifstream path).contents = []

/-- The steps of the signed update: the compatibility check, the switch to update mode, the
wait for the device in update mode and the transfer. -/
def Event.signed_step : Event → Bool
  | .check_firmware_compatibility _ _ => true
  | .enter_update_state _ => true
  | .wait_for_fw_update_device _ => true
  | .update _ _ => true
  | _ => false

/-- No device reported before the wait of the signed update is a device in update mode whose
firmware-update id is empty or is that of an eligible connected device: the update slot is
still empty when the wait begins. -/
def stale_free (w : World) : Prop :=
  ∀ p, p.early = true → ∀ batch ∈ w.new_devices p, ∀ u ∈ batch, u.is_update_device = true →
    u.firmware_update_id ≠ some "" ∧
    ∀ d ∈ w.query_devices, eligible d = true → u.firmware_update_id ≠ d.firmware_update_id

/-- The stream of the firmware file at `path` keeps the contract of `std::istream::read`: it
is good after the read only when the read delivered every byte of the file. -/
def stream_sound (w : World) (path : String) : Prop :=
  (w.ifstream path).good = true → (w.ifstream path).gcount = (w.ifstream path).contents.length

/-- The devices the recovery can pick, in the words of the specification: the devices of the
enumeration in update-mode identity, restricted, when a serial number is given (the string is
not empty), to those whose firmware-update id is that serial number. -/
def recovery_candidates (a : Args) (w : World) : List Device :=
  w.query_devices.filter fun d =>
    d.is_update_device &&
      ((getValue a.serial_number_arg).isEmpty ||
        decide (d.firmware_update_id = some (getValue a.serial_number_arg)))

/-- A device in normal identity with the firmware-update id `update_serial_number`: the
device whose appearance tells that the recovery is complete. -/
def recovered_device (update_serial_number : String) (d : Device) : Prop :=
  d.is_update_device = false ∧ d.firmware_update_id = some update_serial_number

/-- The flag `recovery_device_found` when the wait of the recovery path is over: set during
the transfer, or during the wait. -/
def recovered (w : World) (update_serial_number : String) : Bool :=
  deliver_recovery update_serial_number false (w.new_devices .recovering) ||
    deliver_recovery update_serial_number false (w.new_devices .recovery_wait)

/-- The state `s` with the output `l` put before its own. -/
def State.prepend (l : List Event) (s : State) : State :=
  { s with out := l ++ s.out }

/-- The end of a pass of the loop body with the output `l` put before its own. -/
def Flow.prepend (l : List Event) : Flow → Flow
  | .next s => .next (s.prepend l)
  | .brk s => .brk (s.prepend l)
  | .ret s code => .ret (s.prepend l) code

/-- The run `r` with the output `l` put before its own. -/
def Run.prepend (l : List Event) (r : Run) : Run :=
  ⟨l ++ r.out, r.status⟩

instance (a : Args) (n : Nat) (d : Device) : Decidable (selected a n d) := by
  unfold selected; infer_instance

/-- The USB type the specification of `is_mipi_device` speaks of: "unknown" when the device does
not support the attribute, the reported value otherwise. -/
def usb_type_or_unknown (dev : Device) : String :=
  match dev.get_info .USB_TYPE_DESCRIPTOR with
  | some usb_type => usb_type
  | none => "unknown"

/-! ## Devices and worlds for the concrete runs -/

/-- A camera on a USB 3 port, in its normal identity. -/
def camera (handle : Nat) (serial_number firmware_update_id : String) : Device :=
  ⟨handle, false, true, some "D435", some serial_number, some "5.12.7.100", some "3.2",
    some "0B07", some firmware_update_id, none⟩

/-- A camera in its update (recovery) identity. -/
def dfu_camera (handle : Nat) (firmware_update_id : String) : Device :=
  ⟨handle, true, false, some "Recovery", none, none, none, some "0ADB",
    some firmware_update_id, none⟩

/-- A camera on the MIPI connector: product id "ABCD", no USB type. -/
def mipi_camera (handle : Nat) (serial_number firmware_update_id : String) : Device :=
  ⟨handle, false, true, some "D457", some serial_number, some "5.13.1.1", none, some "ABCD",
    some firmware_update_id, some "/dev/d4xx-dfu504"⟩

/-- A device without the update capability. -/
def plain_device (handle : Nat) : Device :=
  ⟨handle, false, false, some "T265", some "T1", none, some "3.1", some "0B37", none, none⟩

/-- A world in which `devs` are connected, every file opens and holds the bytes 1, 2, 3,
every call on a device succeeds, and no device is ever reported as new. -/
def bench (devs : List Device) : World where
  query_devices := devs
  query_all_devices := devs
  query_devices_after := devs
  ifstream := fun _ => ⟨true, [1, 2, 3], 3, true⟩
  ofstream_is_open := fun _ => true
  ofstream_good := fun _ _ => true
  create_flash_backup := fun _ => some [7, 7]
  update_unsigned := fun _ _ => true
  check_firmware_compatibility := fun _ _ => some true
  enter_update_state := fun _ => true
  update := fun _ _ => true
  new_devices := fun _ => []

/-- The world `bench devs` in which the firmware files cannot be opened. -/
def bench_unreadable (devs : List Device) : World :=
  { bench devs with ifstream := fun _ => ⟨false, [], 0, false⟩ }

/-- The world `bench devs` in which the batches `early` are reported while the loop is at its
first device and the batches `late` during the wait of the signed update. -/
def bench_reporting (devs : List Device) (early late : List (List Device)) : World :=
  { bench devs with
    new_devices := fun p =>
      match p with
      | .visiting 0 => early
      | .update_wait => late
      | _ => [] }

/-- The world `bench devs` in which no firmware is compatible with any device. -/
def bench_incompatible (devs : List Device) : World :=
  { bench devs with check_firmware_compatibility := fun _ _ => some false }

instance (update_serial_number : String) (d : Device) :
    Decidable (recovered_device update_serial_number d) := by
  unfold recovered_device; infer_instance

/-- The world `bench devs` in which the batches `during` are reported while the recovery
transfers the image and the batches `late` during the wait of the recovery. -/
def bench_recovering (devs : List Device) (during late : List (List Device)) : World :=
  { bench devs with
    new_devices := fun p =>
      match p with
      | .recovering => during
      | .recovery_wait => late
      | _ => [] }

@[simp] theorem emit_out (s : State) (e : Event) : (s.emit e).out = s.out ++ [e] := rfl

@[simp] theorem emit_update_serial_number (s : State) (e : Event) :
    (s.emit e).update_serial_number = s.update_serial_number := rfl

@[simp] theorem emit_device_found (s : State) (e : Event) :
    (s.emit e).device_found = s.device_found := rfl

@[simp] theorem emit_done (s : State) (e : Event) : (s.emit e).done = s.done := rfl

@[simp] theorem emit_new_fw_update_device (s : State) (e : Event) :
    (s.emit e).new_fw_update_device = s.new_fw_update_device := rfl

@[simp] theorem emit_new_device (s : State) (e : Event) :
    (s.emit e).new_device = s.new_device := rfl

/-- The callback writes the two device slots and nothing else. -/
theorem callback_frame (batch : List Device) (s : State) :
    (devices_changed_callback batch s).out = s.out ∧
    (devices_changed_callback batch s).update_serial_number = s.update_serial_number ∧
    (devices_changed_callback batch s).device_found = s.device_found ∧
    (devices_changed_callback batch s).done = s.done := by
  induction batch generalizing s with
  | nil => simp [devices_changed_callback]
  | cons d ds ih =>
    unfold devices_changed_callback
    split
    · split
      · simp
      · split
        · simpa using ih _
        · simpa using ih _
    · simpa using ih _

theorem deliver_frame (batches : List (List Device)) (s : State) :
    (deliver s batches).out = s.out ∧
    (deliver s batches).update_serial_number = s.update_serial_number ∧
    (deliver s batches).device_found = s.device_found ∧
    (deliver s batches).done = s.done := by
  induction batches generalizing s with
  | nil => simp [deliver]
  | cons b bs ih =>
    have h := ih (devices_changed_callback b s)
    have hb := callback_frame b s
    simp only [deliver, List.foldl_cons] at h ⊢
    rw [h.1, h.2.1, h.2.2.1, h.2.2.2]
    exact hb

@[simp] theorem deliver_out (batches : List (List Device)) (s : State) :
    (deliver s batches).out = s.out := (deliver_frame batches s).1

@[simp] theorem deliver_update_serial_number (batches : List (List Device)) (s : State) :
    (deliver s batches).update_serial_number = s.update_serial_number :=
  (deliver_frame batches s).2.1

@[simp] theorem deliver_device_found (batches : List (List Device)) (s : State) :
    (deliver s batches).device_found = s.device_found := (deliver_frame batches s).2.2.1

@[simp] theorem deliver_done (batches : List (List Device)) (s : State) :
    (deliver s batches).done = s.done := (deliver_frame batches s).2.2.2

@[simp] theorem wait_for_out (pred : State → Bool) (batches : List (List Device)) (s : State) :
    (wait_for pred batches s).out = s.out := by
  unfold wait_for; split <;> simp

@[simp] theorem wait_for_done (pred : State → Bool) (batches : List (List Device))
    (s : State) : (wait_for pred batches s).done = s.done := by
  unfold wait_for; split <;> simp

@[simp] theorem wait_for_update_serial_number (pred : State → Bool)
    (batches : List (List Device)) (s : State) :
    (wait_for pred batches s).update_serial_number = s.update_serial_number := by
  unfold wait_for; split <;> simp

/-! ## The path `main` takes -/

theorem main_update_path (a : Args) (w : World) (h : a.update_requested = true) :
    main a w = update_device a w (search_out a) := by
  obtain ⟨l, r, u, b, f, sn⟩ := a
  simp only [Args.update_requested, Bool.and_eq_true, Bool.not_eq_true', Bool.or_eq_true] at h
  obtain ⟨⟨hl, hr⟩, hfb⟩ := h
  subst hl hr
  unfold main search_out
  rcases hfb with hf | hb
  · cases f <;> simp_all
  · cases b <;> simp_all

/-- While no device of the enumeration is eligible the loop changes nothing. -/
theorem for_each_device_skip (a : Args) (w : World) (n : Nat) (devs : List Device)
    (h : ∀ d ∈ devs, eligible d = false) (i : Nat) (s : State) :
    for_each_device a w n i devs s = .next s := by
  induction devs generalizing i s with
  | nil => rfl
  | cons d ds ih =>
    have hd : eligible d = false := h d (List.mem_cons_self _ _)
    have hb : loop_body a w n i d s = .next s := by
      unfold loop_body
      unfold eligible at hd
      cases hu : d.is_updatable <;> simp_all
    simp only [for_each_device, hb]
    exact ih (fun x hx => h x (List.mem_cons_of_mem _ hx)) _ _

/-- C4: in the update path, when at least two eligible devices are connected and no serial
number is given, the run prints only 'More than one device is connected, serial number must
be selected' and fails: no call is made on any device. -/
theorem ambiguous_without_serial (a : Args) (w : World)
    (hreq : a.update_requested = true) (hsn : a.serial_number_arg = none)
    (htwo : 2 ≤ (w.query_devices.filter eligible).length) :
    main a w =
      ⟨[.cout "More than one device is connected, serial number must be selected"],
        EXIT_FAILURE⟩ := by
  have hlen : 1 < w.query_devices.length :=
    lt_of_lt_of_le htwo (List.length_filter_le _ _)
  rw [main_update_path a w hreq]
  simp [update_device, search_out, hsn, hlen]

/-- C3: in the update path, when no connected device is eligible (the enumeration may be
empty), with or without a serial number, the run fails and no call reaches a device: no flash
backup, switch to update mode, signed or unsigned transfer, MIPI write or file write. -/
theorem no_eligible_device_fails (a : Args) (w : World)
    (hreq : a.update_requested = true)
    (hnone : ∀ d ∈ w.query_devices, eligible d = false) :
    (main a w).status = EXIT_FAILURE ∧ ∀ e ∈ (main a w).out, e.touches_device = false := by
  rw [main_update_path a w hreq]
  unfold update_device
  simp only [for_each_device_skip a w _ _ hnone]
  have hs : ∀ e ∈ search_out a, e.touches_device = false := by
    unfold search_out
    cases a.serial_number_arg <;> simp [Event.touches_device]
  have key : ∀ msg, ∀ e ∈ search_out a ++ [.cout msg], e.touches_device = false := by
    intro msg e he
    rcases List.mem_append.1 he with h | h
    · exact hs e h
    · rw [List.mem_singleton.1 h]; rfl
  split
  · exact ⟨rfl, by simpa using key _⟩
  · split
    · exact ⟨rfl, by simpa using key _⟩
    · split
      · exact ⟨rfl, by simpa using key _⟩
      · unfold leave_loop after_loop
        simp only [deliver_device_found, Bool.not_false, if_true]
        split
        · exact ⟨rfl, by simpa using key _⟩
        · split
          · exact ⟨rfl, by simpa using key _⟩
          · exact ⟨rfl, by simpa using hs⟩

/-! ## Outputs that extend one another -/

theorem Ext.refl (P : Event → Prop) (l : List Event) : Ext P l l := by
  simp [Ext]

theorem Ext.append {P : Event → Prop} (l m : List Event) (h : ∀ e ∈ m, P e) :
    Ext P l (l ++ m) := by
  simpa [Ext] using h

theorem Ext.trans {P : Event → Prop} {l₁ l₂ l₃ : List Event} (h₁ : Ext P l₁ l₂)
    (h₂ : Ext P l₂ l₃) : Ext P l₁ l₃ := by
  obtain ⟨⟨m₁, rfl⟩, hm₁⟩ := h₁
  obtain ⟨⟨m₂, rfl⟩, hm₂⟩ := h₂
  simp only [List.drop_left] at hm₁ hm₂
  rw [List.append_assoc]
  refine Ext.append _ _ ?_
  intro e he
  rcases List.mem_append.1 he with h | h
  · exact hm₁ e h
  · exact hm₂ e h

theorem Ext.mono {P Q : Event → Prop} {l₁ l₂ : List Event} (h : Ext P l₁ l₂)
    (hPQ : ∀ e, P e → Q e) : Ext Q l₁ l₂ :=
  ⟨h.1, fun e he => hPQ e (h.2 e he)⟩

theorem Ext.mem {P : Event → Prop} {l₁ l₂ : List Event} (h : Ext P l₁ l₂) {e : Event}
    (he : e ∈ l₂) : e ∈ l₁ ∨ P e := by
  obtain ⟨⟨m, rfl⟩, hm⟩ := h
  simp only [List.drop_left] at hm
  rcases List.mem_append.1 he with h | h
  · exact Or.inl h
  · exact Or.inr (hm e h)

theorem Ext.subset {P : Event → Prop} {l₁ l₂ : List Event} (h : Ext P l₁ l₂) {e : Event}
    (he : e ∈ l₁) : e ∈ l₂ := h.1.subset he

/-! ## What each block of the loop body adds to the output -/

theorem backup_flash_ext (a : Args) (w : World) (temp : String) (d : Device) (s : State)
    (hb : a.backup_arg = some temp) :
    Ext (guarded a w d) s.out (backup_flash w temp d s).1.out := by
  unfold backup_flash
  cases hc : w.create_flash_backup d with
  | none => simp [Ext, guarded, hb]
  | some flash =>
    by_cases he : flash.isEmpty = true
    · simp [Ext, guarded, hb, he]
    · by_cases ho : w.ofstream_is_open temp = true
      · by_cases hg : w.ofstream_good temp flash = true <;>
          simp [Ext, guarded, hb, he, ho, hg, hc]
      · simp [Ext, guarded, hb, he, ho]

theorem write_fw_to_mipi_device_ext (a : Args) (w : World) (d : Device) (fw : Bytes)
    (s : State) (hl : loaded a w fw) (hm : is_mipi_device d = some true)
    (hu : a.unsigned_arg = false) :
    Ext (guarded a w d) s.out (write_fw_to_mipi_device w d fw s).state.out := by
  unfold write_fw_to_mipi_device
  cases hp : d.get_info .DFU_DEVICE_PATH with
  | none => simp [Ext, guarded, rs2_error, Flow.state, hl, hm, hu]
  | some path =>
    by_cases ho : w.ofstream_is_open path = true
    · by_cases hg : w.ofstream_good path fw = true <;>
        simp [Ext, guarded, Flow.state, hl, hm, hu, ho, hg, hp]
    · simp [Ext, guarded, Flow.state, hl, hm, hu, ho]

theorem update_signed_ext (a : Args) (w : World) (d : Device) (fw : Bytes) (s : State)
    (hl : loaded a w fw) (hm : is_mipi_device d = some false) (hu : a.unsigned_arg = false)
    (hid : d.firmware_update_id = some s.update_serial_number) :
    Ext (guarded a w d) s.out (update_signed w d fw s).state.out := by
  unfold update_signed
  cases hc : w.check_firmware_compatibility d fw with
  | none => simp [Ext, guarded, rs2_error, Flow.state, hl, hm, hu]
  | some c =>
    cases c with
    | false =>
      cases hn : d.get_info .NAME <;>
        simp [Ext, guarded, rs2_error, Flow.state, hl, hm, hu]
    | true =>
      by_cases he : w.enter_update_state d = true
      · simp only [he, Bool.not_true, Bool.false_eq_true, if_false]
        split
        · simp only [Flow.state, emit_out, wait_for_out, List.append_assoc]
          refine Ext.append _ _ ?_
          simp only [List.mem_append, List.mem_singleton, List.mem_cons, List.not_mem_nil, or_false,
            or_assoc]
          rintro e (rfl | rfl | rfl | rfl)
          · exact ⟨rfl, hl, hm, hu⟩
          · exact ⟨rfl, hm, hu, fw, hl, hc⟩
          · exact ⟨hid, hm, hu, he, fw, hl, hc⟩
          · trivial
        · rename_i u hu'
          by_cases hupd : w.update u fw = true
          · simp only [update, hupd, if_true, Bool.not_true, Bool.false_eq_true, if_false,
              Flow.state, emit_out, wait_for_out, List.append_assoc]
            refine Ext.append _ _ ?_
            simp only [List.mem_append, List.mem_singleton, List.mem_cons, List.not_mem_nil, or_false,
            or_assoc]
            rintro e (rfl | rfl | rfl | rfl | rfl | rfl)
            · exact ⟨rfl, hl, hm, hu⟩
            · exact ⟨rfl, hm, hu, fw, hl, hc⟩
            · exact ⟨hid, hm, hu, he, fw, hl, hc⟩
            · trivial
            · exact ⟨hl, hm, hu, hc, he⟩
            · trivial
          · simp only [update, hupd, Bool.false_eq_true, if_false, Bool.not_false, if_true,
              rs2_error, Flow.state, emit_out, wait_for_out, List.append_assoc]
            refine Ext.append _ _ ?_
            simp only [List.mem_append, List.mem_singleton, List.mem_cons, List.not_mem_nil, or_false,
            or_assoc]
            rintro e (rfl | rfl | rfl | rfl | rfl | rfl)
            · exact ⟨rfl, hl, hm, hu⟩
            · exact ⟨rfl, hm, hu, fw, hl, hc⟩
            · exact ⟨hid, hm, hu, he, fw, hl, hc⟩
            · trivial
            · exact ⟨hl, hm, hu, hc, he⟩
            · trivial
      · simp only [he, Bool.not_false, if_true, Bool.false_eq_true, rs2_error, Flow.state,
          emit_out, List.append_assoc]
        refine Ext.append _ _ ?_
        simp only [List.mem_append, List.mem_singleton, List.mem_cons, List.not_mem_nil, or_false,
          or_assoc]
        rintro e (rfl | rfl | rfl)
        · exact ⟨rfl, hl, hm, hu⟩
        · exact ⟨rfl, hm, hu, fw, hl, hc⟩
        · trivial

theorem fw_dfu_ext (a : Args) (w : World) (d : Device) (s : State)
    (hid : d.firmware_update_id = some s.update_serial_number) :
    Ext (guarded a w d) s.out (fw_dfu a w d s).state.out := by
  unfold fw_dfu
  cases hr : read_firmware_data w a.file_arg.isSome (getValue a.file_arg) with
  | error what => simp [Ext, guarded, rs2_error, Flow.state]
  | ok fw =>
    have hl : loaded a w fw := hr
    have hpre : Ext (guarded a w d) s.out
        ((s.emit (.cout "Updating device FW: ")).emit (.print_device_info d)).out := by
      simp only [emit_out, List.append_assoc]
      refine Ext.append _ _ ?_
      simp only [List.mem_append, List.mem_singleton, List.mem_cons, List.not_mem_nil, or_false,
        or_assoc]
      rintro e (rfl | rfl)
      · trivial
      · exact ⟨rfl, fw, hl⟩
    cases hm : is_mipi_device d with
    | none =>
      simp only [rs2_error, Flow.state]
      exact hpre.trans (Ext.append _ _ (by simp [guarded]))
    | some m =>
      cases m with
      | true =>
        cases hu : a.unsigned_arg with
        | true =>
          simp only [if_true, Flow.state]
          exact hpre.trans (Ext.append _ _ (by simp [guarded]))
        | false =>
          simp only [Bool.false_eq_true, if_false]
          exact hpre.trans (write_fw_to_mipi_device_ext a w d fw _ hl hm hu)
      | false =>
        cases hu : a.unsigned_arg with
        | true =>
          simp only [if_true]
          by_cases hupd : w.update_unsigned d fw = true
          · simp only [hupd, Bool.not_true, Bool.false_eq_true, if_false, Flow.state]
            simp only [emit_out, List.append_assoc]
            refine Ext.append _ _ ?_
            simp only [List.mem_append, List.mem_singleton, List.mem_cons, List.not_mem_nil,
              or_false, or_assoc]
            rintro e (rfl | rfl | rfl | rfl | rfl)
            · trivial
            · exact ⟨rfl, fw, hl⟩
            · trivial
            · exact ⟨rfl, hl, hm, hu⟩
            · trivial
          · simp only [hupd, Bool.not_false, if_true, rs2_error, Flow.state]
            simp only [emit_out, List.append_assoc]
            refine Ext.append _ _ ?_
            simp only [List.mem_append, List.mem_singleton, List.mem_cons, List.not_mem_nil,
              or_false, or_assoc]
            rintro e (rfl | rfl | rfl | rfl | rfl)
            · trivial
            · exact ⟨rfl, fw, hl⟩
            · trivial
            · exact ⟨rfl, hl, hm, hu⟩
            · trivial
        | false =>
          simp only [Bool.false_eq_true, if_false]
          exact hpre.trans (update_signed_ext a w d fw _ hl hm hu (by simpa using hid))

theorem usb2_warning_cases (d : Device) (s : State) :
    usb2_warning d s = s ∨ ∃ text, usb2_warning d s = s.emit (.cout text) := by
  unfold usb2_warning
  dsimp only
  split
  · split
    · exact Or.inr ⟨_, rfl⟩
    · exact Or.inl rfl
  · exact Or.inl rfl

@[simp] theorem usb2_warning_update_serial_number (d : Device) (s : State) :
    (usb2_warning d s).update_serial_number = s.update_serial_number := by
  rcases usb2_warning_cases d s with h | ⟨t, h⟩ <;> rw [h] <;> rfl

@[simp] theorem usb2_warning_device_found (d : Device) (s : State) :
    (usb2_warning d s).device_found = s.device_found := by
  rcases usb2_warning_cases d s with h | ⟨t, h⟩ <;> rw [h] <;> rfl

@[simp] theorem usb2_warning_done (d : Device) (s : State) :
    (usb2_warning d s).done = s.done := by
  rcases usb2_warning_cases d s with h | ⟨t, h⟩ <;> rw [h] <;> rfl

@[simp] theorem usb2_warning_new_fw_update_device (d : Device) (s : State) :
    (usb2_warning d s).new_fw_update_device = s.new_fw_update_device := by
  rcases usb2_warning_cases d s with h | ⟨t, h⟩ <;> rw [h] <;> rfl

theorem usb2_warning_ext (d : Device) (s : State) :
    Ext (fun e => e.is_console = true) s.out (usb2_warning d s).out := by
  rcases usb2_warning_cases d s with h | ⟨t, h⟩ <;> rw [h]
  · exact Ext.refl _ _
  · exact Ext.append _ _ (by simp [Event.is_console])

theorem eligible_test (d : Device) :
    (!d.is_updatable || !(d.supports .SERIAL_NUMBER && d.supports .FIRMWARE_UPDATE_ID)) =
      !eligible d := by
  unfold eligible
  cases d.is_updatable <;> simp

theorem backup_flash_update_serial_number (w : World) (temp : String) (d : Device)
    (s : State) :
    (backup_flash w temp d s).1.update_serial_number = s.update_serial_number := by
  unfold backup_flash
  cases w.create_flash_backup d with
  | none => rfl
  | some flash =>
    dsimp only
    split
    · rfl
    · split <;> split <;> rfl

theorem act_on_ext (a : Args) (w : World) (d : Device) (s : State)
    (hid : d.firmware_update_id = some s.update_serial_number) :
    Ext (guarded a w d) s.out (act_on a w d s).state.out := by
  unfold act_on
  cases hb : a.backup_arg with
  | none =>
    dsimp only
    by_cases hf : a.file_arg.isSome = true
    · simpa [hf] using fw_dfu_ext a w d s hid
    · simpa [hf, Flow.state] using Ext.refl _ _
  | some temp =>
    dsimp only
    have hbk := backup_flash_ext a w temp d s hb
    by_cases hok : (backup_flash w temp d s).2 = true
    · simp only [hok, Bool.not_true, Bool.false_eq_true, if_false]
      by_cases hf : a.file_arg.isSome = true
      · simp only [hf, if_true]
        exact hbk.trans (fw_dfu_ext a w d _
          (by rw [backup_flash_update_serial_number]; exact hid))
      · simpa [hf, Flow.state] using hbk
    · simp only [hok, Bool.not_false, if_true, rs2_error, Flow.state, emit_out]
      exact hbk.trans (Ext.append _ _ (by simp [guarded]))

/-- The events one pass of the loop body adds: console lines, and, only when the device is
selected, calls that satisfy their guards. -/
theorem loop_body_ext (a : Args) (w : World) (n i : Nat) (d : Device) (s : State) :
    Ext (fun e => e.is_console = true ∨ (selected a n d ∧ guarded a w d e)) s.out
      (loop_body a w n i d s).state.out := by
  have hwarn : Ext (fun e => e.is_console = true ∨ (selected a n d ∧ guarded a w d e)) s.out
      (usb2_warning d s).out := (usb2_warning_ext d s).mono (fun e he => Or.inl he)
  have hcerr : ∀ (l : List Event) (f m : String),
      Ext (fun e => e.is_console = true ∨ (selected a n d ∧ guarded a w d e)) l
        (l ++ [.cerr f m]) := fun l f m => Ext.append _ _ (by simp [Event.is_console])
  unfold loop_body
  rw [eligible_test]
  cases hel : eligible d with
  | false => simpa [Flow.state] using Ext.refl _ _
  | true =>
    simp only [Bool.not_true, Bool.false_eq_true, if_false]
    cases hid : d.get_info .FIRMWARE_UPDATE_ID with
    | none => simpa [rs2_error, Flow.state] using hwarn.trans (hcerr _ _ _)
    | some id =>
      cases hsn : d.get_info .SERIAL_NUMBER with
      | none => simpa [rs2_error, Flow.state] using hwarn.trans (hcerr _ _ _)
      | some sn =>
        by_cases hcont : sn ≠ getValue a.serial_number_arg ∧ n ≠ 1
        · simpa [hcont, Flow.state] using hwarn
        · have hsel : selected a n d := by
            refine ⟨hel, ?_⟩
            have hsn' : d.serial_number = some sn := hsn
            by_cases h1 : n = 1
            · exact Or.inr h1
            · left
              rw [hsn']
              by_contra hne
              exact hcont ⟨fun h => hne (by rw [h]), h1⟩
          have hfw : d.firmware_update_id = some id := hid
          simp only [hcont, if_false]
          refine hwarn.trans ?_
          have hact := act_on_ext a w d
            { deliver { usb2_warning d s with update_serial_number := id }
                (w.new_devices (.visiting i)) with device_found := true }
            (by simpa using hfw)
          have hact' : Ext (fun e => e.is_console = true ∨ (selected a n d ∧ guarded a w d e))
              _ _ := hact.mono (fun e he => Or.inr ⟨hsel, he⟩)
          simpa using hact'

/-! ## What the update path adds to the output -/

theorem for_each_device_ext (a : Args) (w : World) (n : Nat) (devs ds : List Device)
    (hsub : ∀ d ∈ ds, d ∈ devs) (i : Nat) (s : State) :
    Ext (fun e => e.is_console = true ∨ ∃ d ∈ devs, selected a n d ∧ guarded a w d e) s.out
      (for_each_device a w n i ds s).state.out := by
  induction ds generalizing i s with
  | nil => exact Ext.refl _ _
  | cons d ds ih =>
    have hd : d ∈ devs := hsub d (List.mem_cons_self _ _)
    have hbody : Ext
        (fun e => e.is_console = true ∨ ∃ d ∈ devs, selected a n d ∧ guarded a w d e) s.out
        (loop_body a w n i d s).state.out :=
      (loop_body_ext a w n i d s).mono (fun e he =>
        he.elim Or.inl (fun h => Or.inr ⟨d, hd, h⟩))
    unfold for_each_device
    cases hb : loop_body a w n i d s with
    | next s' =>
      rw [hb] at hbody
      exact hbody.trans (ih (fun x hx => hsub x (List.mem_cons_of_mem _ hx)) _ _)
    | brk s' => rw [hb] at hbody; exact hbody
    | ret s' code => rw [hb] at hbody; exact hbody

theorem report_updated_cons (a : Args) (d : Device) (ds : List Device) :
    report_updated a (d :: ds) = report_updated a ds ∨
      ∃ text, report_updated a (d :: ds) = .cout text :: report_updated a ds := by
  rw [report_updated]
  dsimp only
  generalize (if d.supports .SERIAL_NUMBER = true then getValue (d.get_info .SERIAL_NUMBER)
    else "unknown") = sn
  by_cases h : (a.serial_number_arg.isSome && decide (sn ≠ getValue a.serial_number_arg)) = true
  · rw [if_pos h]; exact Or.inl rfl
  · rw [if_neg h]; exact Or.inr ⟨_, rfl⟩

theorem report_updated_console (a : Args) (ds : List Device) :
    ∀ e ∈ report_updated a ds, e.is_console = true := by
  induction ds with
  | nil => simp [report_updated]
  | cons d ds ih =>
    rcases report_updated_cons a d ds with h | ⟨t, h⟩ <;> rw [h]
    · exact ih
    · intro e he
      rcases List.mem_cons.1 he with h | h
      · rw [h]; rfl
      · exact ih e h

theorem after_loop_ext (a : Args) (w : World) (n : Nat) (s : State) :
    Ext (fun e => e.is_console = true) s.out (after_loop a w n s).out := by
  unfold after_loop
  split
  · split
    · exact Ext.append _ _ (by simp [Event.is_console])
    · split
      · exact Ext.append _ _ (by simp [Event.is_console])
      · exact Ext.refl _ _
  · dsimp only
    split
    · simp only [wait_for_out, emit_out, List.append_assoc]
      refine Ext.append _ _ ?_
      intro e he
      rcases List.mem_append.1 he with h | h
      · rw [List.mem_singleton.1 h]; rfl
      · exact report_updated_console a _ e h
    · simp only [wait_for_out, emit_out]
      exact Ext.append _ _ (by simp [Event.is_console])

/-- Every event the update path adds is a console line or a call on a selected device of the
enumeration, made under its guard. -/
theorem update_device_ext (a : Args) (w : World) (out : List Event) :
    Ext (fun e => e.is_console = true ∨
        ∃ d ∈ w.query_devices, selected a w.query_devices.length d ∧ guarded a w d e)
      out (update_device a w out).out := by
  have hcon : ∀ {l₁ l₂ : List Event}, Ext (fun e => e.is_console = true) l₁ l₂ →
      Ext (fun e => e.is_console = true ∨
        ∃ d ∈ w.query_devices, selected a w.query_devices.length d ∧ guarded a w d e) l₁ l₂ :=
    fun h => h.mono (fun e he => Or.inl he)
  unfold update_device
  dsimp only
  split
  · simpa using hcon (Ext.append out _ (by simp [Event.is_console]))
  · split
    · simpa using hcon (Ext.append out _ (by simp [Event.is_console]))
    · split
      · simpa using hcon (Ext.append out _ (by simp [Event.is_console]))
      · have hloop := for_each_device_ext a w w.query_devices.length w.query_devices
          w.query_devices (fun d hd => hd) 0
          (deliver ⟨out, "", none, none, false, false⟩ (w.new_devices .registered))
        simp only [deliver_out] at hloop
        cases hf : for_each_device a w w.query_devices.length 0 w.query_devices
            (deliver ⟨out, "", none, none, false, false⟩ (w.new_devices .registered)) with
        | ret s code => rw [hf] at hloop; exact hloop
        | brk s => rw [hf] at hloop; exact hloop.trans (hcon (after_loop_ext a w _ s))
        | next s => rw [hf] at hloop; exact hloop.trans (hcon (after_loop_ext a w _ s))

theorem search_out_console (a : Args) : ∀ e ∈ search_out a, e.is_console = true := by
  unfold search_out
  cases a.serial_number_arg <;> simp [Event.is_console]

/-- In the update path every event of the run is a console line or a call on a selected device
of the enumeration, made under its guard. -/
theorem main_guarded (a : Args) (w : World) (hreq : a.update_requested = true) :
    ∀ e ∈ (main a w).out, e.is_console = true ∨
      ∃ d ∈ w.query_devices, selected a w.query_devices.length d ∧ guarded a w d e := by
  intro e he
  rw [main_update_path a w hreq] at he
  rcases (update_device_ext a w (search_out a)).mem he with h | h
  · exact Or.inl (search_out_console a e h)
  · exact h

/-! ## The update slot under the callback -/

theorem callback_slot (batch : List Device) (s : State) (u : Device)
    (h : (devices_changed_callback batch s).new_fw_update_device = some u) :
    s.new_fw_update_device = some u ∨
      (u ∈ batch ∧ u.is_update_device = true ∧
        u.firmware_update_id = some s.update_serial_number) := by
  induction batch generalizing s with
  | nil => exact Or.inl h
  | cons d ds ih =>
    unfold devices_changed_callback at h
    by_cases hu : d.is_update_device = true
    · simp only [hu, if_true] at h
      cases hid : d.get_info .FIRMWARE_UPDATE_ID with
      | none => rw [hid] at h; exact Or.inl h
      | some id =>
        rw [hid] at h
        dsimp only at h
        by_cases heq : id = s.update_serial_number
        · rw [if_pos heq] at h
          rcases ih _ h with h' | ⟨hm, h1, h2⟩
          · right
            have hdu : d = u := Option.some.inj h'
            subst hdu
            exact ⟨List.mem_cons_self _ _, hu, by rw [← heq]; exact hid⟩
          · exact Or.inr ⟨List.mem_cons_of_mem _ hm, h1, h2⟩
        · rw [if_neg heq] at h
          rcases ih _ h with h' | ⟨hm, h1, h2⟩
          · exact Or.inl h'
          · exact Or.inr ⟨List.mem_cons_of_mem _ hm, h1, h2⟩
    · simp only [hu, Bool.false_eq_true, if_false] at h
      rcases ih _ h with h' | ⟨hm, h1, h2⟩
      · exact Or.inl h'
      · exact Or.inr ⟨List.mem_cons_of_mem _ hm, h1, h2⟩

theorem deliver_slot (batches : List (List Device)) (s : State) (u : Device)
    (h : (deliver s batches).new_fw_update_device = some u) :
    s.new_fw_update_device = some u ∨
      ((∃ batch ∈ batches, u ∈ batch) ∧ u.is_update_device = true ∧
        u.firmware_update_id = some s.update_serial_number) := by
  induction batches generalizing s with
  | nil => exact Or.inl h
  | cons b bs ih =>
    simp only [deliver, List.foldl_cons] at h
    rcases ih (devices_changed_callback b s) h with h' | ⟨⟨batch, hb, hm⟩, h1, h2⟩
    · rcases callback_slot b s u h' with h'' | ⟨hm, h1, h2⟩
      · exact Or.inl h''
      · exact Or.inr ⟨⟨b, List.mem_cons_self _ _, hm⟩, h1, h2⟩
    · rw [(callback_frame b s).2.1] at h2
      exact Or.inr ⟨⟨batch, List.mem_cons_of_mem _ hb, hm⟩, h1, h2⟩

theorem wait_for_slot (pred : State → Bool) (batches : List (List Device)) (s : State)
    (u : Device) (h : (wait_for pred batches s).new_fw_update_device = some u) :
    s.new_fw_update_device = some u ∨
      ((∃ batch ∈ batches, u ∈ batch) ∧ u.is_update_device = true ∧
        u.firmware_update_id = some s.update_serial_number) := by
  unfold wait_for at h
  split at h
  · exact Or.inl h
  · exact deliver_slot batches s u h

/-! ## The loop while it goes on -/

theorem Slots.congr {w : World} {devs : List Device} {s s₁ : State}
    (husn : s₁.update_serial_number = s.update_serial_number)
    (hslot : s₁.new_fw_update_device = s.new_fw_update_device) (h : Slots w devs s) :
    Slots w devs s₁ := by
  unfold Slots at h ⊢
  rw [husn, hslot]
  exact h

theorem Steady.stay (w : World) (devs : List Device) (s : State) : Steady w devs s s :=
  ⟨Ext.refl _ _, rfl, id, id⟩

theorem Steady.chain {w : World} {devs : List Device} {s₁ s₂ s₃ : State}
    (h₁ : Steady w devs s₁ s₂) (h₂ : Steady w devs s₂ s₃) : Steady w devs s₁ s₃ :=
  ⟨h₁.1.trans h₂.1, h₂.2.1.trans h₁.2.1, fun h => h₂.2.2.1 (h₁.2.2.1 h),
    fun h => h₂.2.2.2 (h₁.2.2.2 h)⟩

/-- A state that differs from `s` by more output only, none of it ending the loop. -/
theorem Steady.of_out {w : World} {devs : List Device} {s s₁ : State} (l : List Event)
    (hout : s₁.out = s.out ++ l) (hl : ∀ e ∈ l, e.ends_loop = false)
    (husn : s₁.update_serial_number = s.update_serial_number)
    (hslot : s₁.new_fw_update_device = s.new_fw_update_device)
    (hdone : s₁.done = s.done) (hfound : s₁.device_found = s.device_found) :
    Steady w devs s s₁ :=
  ⟨by rw [hout]; exact Ext.append _ _ hl, hdone, fun h => by rw [hfound]; exact h,
    Slots.congr husn hslot⟩

theorem backup_flash_frame (w : World) (temp : String) (d : Device) (s : State) :
    ∃ l, (∀ e ∈ l, e.ends_loop = false) ∧
      (backup_flash w temp d s).1 = { s with out := s.out ++ l } := by
  unfold backup_flash
  cases w.create_flash_backup d with
  | none =>
    exact ⟨[.cout "Trying to back-up device flash", .create_flash_backup d],
      by simp [Event.ends_loop], by simp [State.emit]⟩
  | some flash =>
    dsimp only
    by_cases he : flash.isEmpty = true
    · rw [if_pos he]
      exact ⟨[.cout "Trying to back-up device flash", .create_flash_backup d,
        .cout "Backup flash is not supported"], by simp [Event.ends_loop], by simp [State.emit]⟩
    · rw [if_neg he]
      by_cases ho : w.ofstream_is_open temp = true
      · by_cases hg : w.ofstream_good temp flash = true
        · exact ⟨[.cout "Trying to back-up device flash", .create_flash_backup d,
            .file_write temp flash], by simp [Event.ends_loop], by simp [State.emit, ho, hg]⟩
        · exact ⟨[.cout "Trying to back-up device flash", .create_flash_backup d,
            .file_write temp flash, .cout "Creating backup file failed"],
            by simp [Event.ends_loop], by simp [State.emit, ho, hg]⟩
      · exact ⟨[.cout "Trying to back-up device flash", .create_flash_backup d,
          .cout "Creating backup file failed"], by simp [Event.ends_loop],
          by simp [State.emit, ho]⟩

theorem backup_flash_steady (w : World) (devs : List Device) (temp : String) (d : Device)
    (s : State) : Steady w devs s (backup_flash w temp d s).1 := by
  obtain ⟨l, hl, h⟩ := backup_flash_frame w temp d s
  rw [h]
  exact Steady.of_out l rfl hl rfl rfl rfl rfl

theorem Shape.of_steady {a : Args} {w : World} {devs : List Device} {d : Device} {f : Flow}
    {s s' : State} (hst : Steady w devs s s') (h : Shape a w devs d f s') :
    Shape a w devs d f s := by
  obtain ⟨s₁, hst₁, hcases⟩ := h
  exact ⟨s₁, hst.chain hst₁, hcases⟩

theorem fw_dfu_shape (a : Args) (w : World) (devs : List Device) (d : Device) (s : State)
    (hid : d.firmware_update_id = some s.update_serial_number)
    (hfound : s.device_found = true) :
    Shape a w devs d (fw_dfu a w d s) s := by
  unfold fw_dfu
  cases hr : read_firmware_data w a.file_arg.isSome (getValue a.file_arg) with
  | error what =>
    exact ⟨s, Steady.stay _ _ _, Or.inr (Or.inl ⟨.cerr "" what, rfl, rfl⟩)⟩
  | ok fw =>
    dsimp only
    have hst : Steady w devs s
        ((s.emit (.cout "Updating device FW: ")).emit (.print_device_info d)) :=
      Steady.of_out [.cout "Updating device FW: ", .print_device_info d] (by simp)
        (by simp [Event.ends_loop]) rfl rfl rfl rfl
    cases hm : is_mipi_device d with
    | none =>
      exact ⟨_, hst, Or.inr (Or.inl ⟨.cerr "rs2_get_device_info" "", rfl, rfl⟩)⟩
    | some m =>
      cases m with
      | true =>
        cases hu : a.unsigned_arg with
        | true =>
          simp only [if_true]
          exact ⟨_, hst, Or.inr (Or.inl
            ⟨.cout "Only signed FW is currently supported for MIPI devices", rfl, rfl⟩)⟩
        | false =>
          simp only [Bool.false_eq_true, if_false]
          exact ⟨_, hst, Or.inr (Or.inr (Or.inl ⟨fw, hr, rfl⟩))⟩
      | false =>
        cases hu : a.unsigned_arg with
        | true =>
          simp only [if_true]
          have hst' : Steady w devs s
              ((((s.emit (.cout "Updating device FW: ")).emit (.print_device_info d)).emit
                (.cout "Firmware update started. Please don't disconnect device!")).emit
                (.update_unsigned d fw)) :=
            Steady.of_out [.cout "Updating device FW: ", .print_device_info d,
              .cout "Firmware update started. Please don't disconnect device!",
              .update_unsigned d fw] (by simp) (by simp [Event.ends_loop]) rfl rfl rfl rfl
          by_cases hupd : w.update_unsigned d fw = true
          · simp only [hupd, Bool.not_true, Bool.false_eq_true, if_false]
            refine ⟨_, ?_, Or.inl rfl⟩
            exact Steady.of_out [.cout "Updating device FW: ", .print_device_info d,
              .cout "Firmware update started. Please don't disconnect device!",
              .update_unsigned d fw, .cout "Firmware update done"] (by simp)
              (by simp [Event.ends_loop]) rfl rfl rfl rfl
          · simp only [hupd, Bool.not_false, if_true]
            exact ⟨_, hst', Or.inr (Or.inl
              ⟨.cerr "rs2_update_firmware_unsigned" "", rfl, rfl⟩)⟩
        | false =>
          simp only [Bool.false_eq_true, if_false]
          exact ⟨_, hst, Or.inr (Or.inr (Or.inr ⟨fw, hr, hid, hfound, rfl⟩))⟩

theorem act_on_shape (a : Args) (w : World) (devs : List Device) (d : Device) (s : State)
    (hid : d.firmware_update_id = some s.update_serial_number)
    (hfound : s.device_found = true) :
    Shape a w devs d (act_on a w d s) s := by
  unfold act_on
  cases hb : a.backup_arg with
  | none =>
    dsimp only
    by_cases hf : a.file_arg.isSome = true
    · simp only [hf, Bool.not_true, Bool.false_eq_true, if_false, if_true]
      exact fw_dfu_shape a w devs d s hid hfound
    · simp only [hf, Bool.not_true, Bool.false_eq_true, if_false]
      exact ⟨s, Steady.stay _ _ _, Or.inl rfl⟩
  | some temp =>
    dsimp only
    have hst := backup_flash_steady w devs temp d s
    obtain ⟨l, -, hfr⟩ := backup_flash_frame w temp d s
    by_cases hok : (backup_flash w temp d s).2 = true
    · simp only [hok, Bool.not_true, Bool.false_eq_true, if_false]
      by_cases hf : a.file_arg.isSome = true
      · simp only [hf, if_true]
        refine Shape.of_steady hst (fw_dfu_shape a w devs d _ ?_ ?_)
        · rw [hfr]; exact hid
        · rw [hfr]; exact hfound
      · simp only [hf, Bool.false_eq_true, if_false]
        exact ⟨_, hst, Or.inl rfl⟩
    · simp only [hok, Bool.not_false, if_true]
      exact ⟨_, hst, Or.inr (Or.inl ⟨.cerr "rs2_create_flash_backup" "", rfl, rfl⟩)⟩

theorem loop_body_shape (a : Args) (w : World) (devs : List Device) (n i : Nat) (d : Device)
    (hd : d ∈ devs) (s : State) :
    Shape a w devs d (loop_body a w n i d s) s := by
  unfold loop_body
  rw [eligible_test]
  cases hel : eligible d with
  | false => exact ⟨s, Steady.stay _ _ _, Or.inl (by simp)⟩
  | true =>
    simp only [Bool.not_true, Bool.false_eq_true, if_false]
    have hwarn : Steady w devs s (usb2_warning d s) := by
      rcases usb2_warning_cases d s with h | ⟨t, h⟩ <;> rw [h]
      · exact Steady.stay _ _ _
      · exact Steady.of_out [.cout t] rfl (by simp [Event.ends_loop]) rfl rfl rfl rfl
    cases hid : d.get_info .FIRMWARE_UPDATE_ID with
    | none => exact ⟨_, hwarn, Or.inr (Or.inl ⟨.cerr "rs2_get_device_info" "", rfl, rfl⟩)⟩
    | some id =>
      dsimp only
      have hfw : d.firmware_update_id = some id := hid
      have hdel : Steady w devs s
          (deliver { usb2_warning d s with update_serial_number := id }
            (w.new_devices (.visiting i))) := by
        refine ⟨by simpa using hwarn.1, by simp, by simp, ?_⟩
        intro hs
        refine ⟨Or.inr ⟨d, hd, hel, by simpa using hfw⟩, ?_⟩
        intro u hu
        rcases deliver_slot _ _ u hu with h | ⟨hb, h1, h2⟩
        · exact hs.2 u (by simpa using h)
        · exact ⟨h1, ⟨.visiting i, rfl, hb⟩, Or.inr ⟨d, hd, hel, by rw [h2, hfw]⟩⟩
      cases hsn : d.get_info .SERIAL_NUMBER with
      | none => exact ⟨_, hdel, Or.inr (Or.inl ⟨.cerr "rs2_get_device_info" "", rfl, rfl⟩)⟩
      | some sn =>
        dsimp only
        by_cases hcont : sn ≠ getValue a.serial_number_arg ∧ n ≠ 1
        · rw [if_pos hcont]
          exact ⟨_, hdel, Or.inl rfl⟩
        · rw [if_neg hcont]
          have hfound : Steady w devs
              (deliver { usb2_warning d s with update_serial_number := id }
                (w.new_devices (.visiting i)))
              { deliver { usb2_warning d s with update_serial_number := id }
                (w.new_devices (.visiting i)) with device_found := true } :=
            ⟨Ext.refl _ _, rfl, fun _ => rfl, Slots.congr rfl rfl⟩
          refine Shape.of_steady (hdel.chain hfound) (act_on_shape a w devs d _ ?_ rfl)
          simpa using hfw

/-! ## The update path as a whole -/

theorem write_fw_to_mipi_device_ret (w : World) (d : Device) (fw : Bytes) (s : State) :
    ∃ s' code, write_fw_to_mipi_device w d fw s = .ret s' code := by
  unfold write_fw_to_mipi_device
  dsimp only
  split
  · exact ⟨_, _, rfl⟩
  · split
    · split <;> exact ⟨_, _, rfl⟩
    · exact ⟨_, _, rfl⟩

theorem update_signed_not_next (w : World) (d : Device) (fw : Bytes) (s : State) :
    (∃ s' code, update_signed w d fw s = .ret s' code) ∨
      ∃ s', update_signed w d fw s = .brk s' := by
  unfold update_signed
  dsimp only
  split
  · exact Or.inl ⟨_, _, rfl⟩
  · split <;> exact Or.inl ⟨_, _, rfl⟩
  · split
    · exact Or.inl ⟨_, _, rfl⟩
    · split
      · exact Or.inl ⟨_, _, rfl⟩
      · split
        · exact Or.inl ⟨_, _, rfl⟩
        · exact Or.inr ⟨_, rfl⟩

theorem for_each_device_shape (a : Args) (w : World) (devs : List Device) (n : Nat)
    (ds : List Device) (hsub : ∀ d ∈ ds, d ∈ devs) (i : Nat) (s : State) :
    RunShape a w devs n (leave_loop a w n (for_each_device a w n i ds s)) s := by
  induction ds generalizing i s with
  | nil => exact ⟨s, Steady.stay _ _ _, Or.inl rfl⟩
  | cons d ds ih =>
    have hd : d ∈ devs := hsub d (List.mem_cons_self _ _)
    obtain ⟨s₁, hst, hcases⟩ := loop_body_shape a w devs n i d hd s
    unfold for_each_device
    rcases hcases with h | ⟨e, he, h⟩ | ⟨fw, hl, h⟩ | ⟨fw, hl, hid, hfound, h⟩
    · rw [h]
      obtain ⟨s₂, hst₂, hrest⟩ := ih (fun x hx => hsub x (List.mem_cons_of_mem _ hx)) (i + 1) s₁
      exact ⟨s₂, hst.chain hst₂, hrest⟩
    · rw [h]
      exact ⟨s₁, hst, Or.inr (Or.inl ⟨e, he, rfl⟩)⟩
    · rw [h]
      obtain ⟨s', code, hret⟩ := write_fw_to_mipi_device_ret w d fw s₁
      refine ⟨s₁, hst, Or.inr (Or.inr (Or.inl ⟨d, hd, fw, hl, ?_⟩))⟩
      rw [hret]
    · rw [h]
      refine ⟨s₁, hst, Or.inr (Or.inr (Or.inr ⟨d, hd, fw, hl, hid, hfound, ?_⟩))⟩
      rcases update_signed_not_next w d fw s₁ with ⟨s', code, hret⟩ | ⟨s', hbrk⟩
      · rw [hret]
      · rw [hbrk]; rfl

/-- The update path either fails one of its three tests on the enumeration, or ends in one of
the four ways of `RunShape`. -/
theorem update_device_shape (a : Args) (w : World) (out : List Event) :
    (∃ text, update_device a w out = ⟨out ++ [.cout text], EXIT_FAILURE⟩) ∨
      RunShape a w w.query_devices w.query_devices.length (update_device a w out)
        (deliver ⟨out, "", none, none, false, false⟩ (w.new_devices .registered)) := by
  unfold update_device
  dsimp only
  split
  · exact Or.inl
      ⟨"More than one device is connected, serial number must be selected", by simp⟩
  · split
    · exact Or.inl ⟨"Device is in recovery mode, use -r to recover", by simp⟩
    · split
      · exact Or.inl ⟨"No devices were found", by simp⟩
      · exact Or.inr (for_each_device_shape a w _ _ _ (fun d hd => hd) 0 _)

/-- The state in which the device loop is entered. -/
theorem entry_state (w : World) (devs : List Device) (out : List Event) :
    (deliver ⟨out, "", none, none, false, false⟩ (w.new_devices .registered)).out = out ∧
    (deliver ⟨out, "", none, none, false, false⟩ (w.new_devices .registered)).done = false ∧
    Slots w devs (deliver ⟨out, "", none, none, false, false⟩ (w.new_devices .registered)) := by
  refine ⟨by simp, by simp, Or.inl (by simp), ?_⟩
  intro u hu
  rcases deliver_slot _ _ u hu with h | ⟨hb, h1, h2⟩
  · simp at h
  · exact ⟨h1, ⟨.registered, rfl, hb⟩, Or.inl (by simpa using h2)⟩

/-! ## The signed update -/

theorem callback_emit (batch : List Device) (s : State) (e : Event) :
    devices_changed_callback batch (s.emit e) = (devices_changed_callback batch s).emit e := by
  induction batch generalizing s with
  | nil => rfl
  | cons d ds ih =>
    unfold devices_changed_callback
    split
    · split
      · rfl
      · simp only [emit_update_serial_number]
        split
        · exact ih { s with new_fw_update_device := some d }
        · exact ih { s with new_device := some d }
    · exact ih { s with new_device := some d }

theorem deliver_emit (batches : List (List Device)) (s : State) (e : Event) :
    deliver (s.emit e) batches = (deliver s batches).emit e := by
  induction batches generalizing s with
  | nil => rfl
  | cons b bs ih =>
    simp only [deliver, List.foldl_cons] at ih ⊢
    rw [callback_emit, ih]

theorem wait_for_emit (batches : List (List Device)) (s : State) (e : Event) :
    wait_for (fun s => s.new_fw_update_device.isSome) batches (s.emit e) =
      (wait_for (fun s => s.new_fw_update_device.isSome) batches s).emit e := by
  unfold wait_for
  simp only [emit_new_fw_update_device]
  split
  · rfl
  · exact deliver_emit _ _ _

@[simp] theorem wait_for_device_found (pred : State → Bool) (batches : List (List Device))
    (s : State) : (wait_for pred batches s).device_found = s.device_found := by
  unfold wait_for; split <;> simp

/-- The five ways the run ends once the signed update of `d` has begun in state `s`. -/
theorem signed_run_cases (a : Args) (w : World) (n : Nat) (d : Device) (fw : Bytes)
    (s : State) (hfound : s.device_found = true) :
    (w.check_firmware_compatibility d fw ≠ some true ∧
      (leave_loop a w n (update_signed w d fw s)).status = EXIT_FAILURE ∧
      ∃ e, e.is_console = true ∧ (leave_loop a w n (update_signed w d fw s)).out =
        s.out ++ [.check_firmware_compatibility d fw, e]) ∨
    (w.check_firmware_compatibility d fw = some true ∧ w.enter_update_state d = false ∧
      (leave_loop a w n (update_signed w d fw s)).status = EXIT_FAILURE ∧
      (leave_loop a w n (update_signed w d fw s)).out =
        s.out ++ [.check_firmware_compatibility d fw, .enter_update_state d,
          .cerr "rs2_enter_update_state" ""]) ∨
    (w.check_firmware_compatibility d fw = some true ∧ w.enter_update_state d = true ∧
      awaited_device w s = none ∧
      (leave_loop a w n (update_signed w d fw s)).status = EXIT_FAILURE ∧
      (leave_loop a w n (update_signed w d fw s)).out =
        s.out ++ [.check_firmware_compatibility d fw, .enter_update_state d,
          .wait_for_fw_update_device s.update_serial_number,
          .cout "Failed to locate a device in FW update mode"]) ∨
    (∃ u, w.check_firmware_compatibility d fw = some true ∧ w.enter_update_state d = true ∧
      awaited_device w s = some u ∧ w.update u fw = false ∧
      (leave_loop a w n (update_signed w d fw s)).status = EXIT_FAILURE ∧
      (leave_loop a w n (update_signed w d fw s)).out =
        s.out ++ [.check_firmware_compatibility d fw, .enter_update_state d,
          .wait_for_fw_update_device s.update_serial_number,
          .cout "Firmware update started. Please don't disconnect device!", .update u fw,
          .cerr "rs2_update_firmware" ""]) ∨
    (∃ u, w.check_firmware_compatibility d fw = some true ∧ w.enter_update_state d = true ∧
      awaited_device w s = some u ∧ w.update u fw = true ∧
      (leave_loop a w n (update_signed w d fw s)).status = EXIT_SUCCESS ∧
      ∃ l, (∀ e ∈ l, e.is_console = true) ∧
        (leave_loop a w n (update_signed w d fw s)).out =
          s.out ++ [.check_firmware_compatibility d fw, .enter_update_state d,
            .wait_for_fw_update_device s.update_serial_number,
            .cout "Firmware update started. Please don't disconnect device!", .update u fw,
            .cout "Firmware update done"] ++ l) := by
  have hslot : (wait_for (fun s => s.new_fw_update_device.isSome)
      (w.new_devices .update_wait)
      (((s.emit (.check_firmware_compatibility d fw)).emit (.enter_update_state d)).emit
        (.wait_for_fw_update_device ((s.emit (.check_firmware_compatibility d fw)).emit
          (.enter_update_state d)).update_serial_number))).new_fw_update_device =
      awaited_device w s := by
    simp only [wait_for_emit, emit_new_fw_update_device, awaited_device]
  unfold update_signed
  cases hc : w.check_firmware_compatibility d fw with
  | none =>
    left
    exact ⟨by simp, rfl, .cerr "rs2_check_firmware_compatibility" "", rfl,
      by simp [leave_loop, rs2_error]⟩
  | some c =>
    cases c with
    | false =>
      left
      cases hn : d.get_info .NAME with
      | none =>
        exact ⟨by simp, rfl, .cerr "rs2_get_device_info" "", rfl,
          by simp [leave_loop, rs2_error]⟩
      | some name =>
        exact ⟨by simp, rfl, .cout ("This firmware version is not compatible with " ++ name),
          rfl, by simp [leave_loop]⟩
    | true =>
      right
      dsimp only
      by_cases he : w.enter_update_state d = true
      · right
        have hne : ¬ ((!w.enter_update_state d) = true) := by simp [he]
        rw [if_neg hne, hslot]
        cases hq : awaited_device w s with
        | none =>
          left
          exact ⟨rfl, he, rfl, rfl, by simp [leave_loop]⟩
        | some u =>
          right
          dsimp only
          by_cases hupd : w.update u fw = true
          · right
            have hnu : ¬ ((!(update w u fw (wait_for (fun s => s.new_fw_update_device.isSome)
                (w.new_devices .update_wait)
                (((s.emit (.check_firmware_compatibility d fw)).emit
                  (.enter_update_state d)).emit
                  (.wait_for_fw_update_device ((s.emit (.check_firmware_compatibility d fw)).emit
                    (.enter_update_state d)).update_serial_number))).out).2) = true) := by
              simp [update, hupd]
            rw [if_neg hnu]
            refine ⟨u, rfl, he, rfl, hupd, ?_⟩
            simp only [update, hupd, if_true, leave_loop, after_loop, wait_for_device_found,
              emit_device_found, hfound, wait_for_done, emit_done, wait_for_out, emit_out,
              Bool.not_true, Bool.false_eq_true, if_false, emit_update_serial_number]
            refine ⟨trivial, .cout "Waiting for device to reconnect..." ::
              report_updated a w.query_devices_after, ?_, by simp⟩
            intro e he'
            rcases List.mem_cons.1 he' with h | h
            · rw [h]; rfl
            · exact report_updated_console a _ e h
          · left
            have hnu : (!(update w u fw (wait_for (fun s => s.new_fw_update_device.isSome)
                (w.new_devices .update_wait)
                (((s.emit (.check_firmware_compatibility d fw)).emit
                  (.enter_update_state d)).emit
                  (.wait_for_fw_update_device ((s.emit (.check_firmware_compatibility d fw)).emit
                    (.enter_update_state d)).update_serial_number))).out).2) = true := by
              simp [update, hupd]
            rw [if_pos hnu]
            refine ⟨u, rfl, he, rfl, by simpa using hupd, rfl, ?_⟩
            simp [update, hupd, leave_loop, rs2_error]
      · left
        have hne : (!w.enter_update_state d) = true := by simpa using he
        rw [if_pos hne]
        exact ⟨rfl, by simpa using he, rfl, by simp [leave_loop, rs2_error]⟩

/-! ## Devices the loop passes over, and the device it acts on -/

theorem eligible_get_info (d : Device) (h : eligible d = true) :
    (∃ sn, d.get_info .SERIAL_NUMBER = some sn) ∧
      ∃ id, d.get_info .FIRMWARE_UPDATE_ID = some id := by
  unfold eligible Device.supports at h
  simp only [Bool.and_eq_true] at h
  exact ⟨Option.isSome_iff_exists.1 h.2.1, Option.isSome_iff_exists.1 h.2.2⟩

theorem loop_body_unselected (a : Args) (w : World) (n i : Nat) (d : Device) (s : State)
    (h : ¬ selected a n d) :
    ∃ s', loop_body a w n i d s = .next s' ∧ s'.device_found = s.device_found ∧
      s'.done = s.done ∧ Ext (fun e => e.is_console = true) s.out s'.out := by
  unfold loop_body
  rw [eligible_test]
  cases hel : eligible d with
  | false => exact ⟨s, by simp, rfl, rfl, Ext.refl _ _⟩
  | true =>
    obtain ⟨⟨sn, hsn⟩, ⟨id, hid⟩⟩ := eligible_get_info d hel
    simp only [Bool.not_true, Bool.false_eq_true, if_false, hid, hsn]
    have hcont : sn ≠ getValue a.serial_number_arg ∧ n ≠ 1 := by
      constructor
      · intro heq
        exact h ⟨hel, Or.inl (by rw [← heq]; exact hsn)⟩
      · intro h1
        exact h ⟨hel, Or.inr h1⟩
    rw [if_pos hcont]
    exact ⟨_, rfl, by simp, by simp, by simpa using usb2_warning_ext d s⟩

theorem loop_body_selected (a : Args) (w : World) (n i : Nat) (d : Device) (s : State)
    (h : selected a n d) :
    ∃ s₁, loop_body a w n i d s = act_on a w d s₁ ∧
      Ext (fun e => e.is_console = true) s.out s₁.out ∧ s₁.device_found = true ∧
      d.firmware_update_id = some s₁.update_serial_number := by
  unfold loop_body
  rw [eligible_test]
  obtain ⟨hel, hsel⟩ := h
  obtain ⟨⟨sn, hsn⟩, ⟨id, hid⟩⟩ := eligible_get_info d hel
  simp only [hel, Bool.not_true, Bool.false_eq_true, if_false, hid, hsn]
  have hcont : ¬ (sn ≠ getValue a.serial_number_arg ∧ n ≠ 1) := by
    rintro ⟨h1, h2⟩
    rcases hsel with h | h
    · have hsn' : d.serial_number = some sn := hsn
      rw [hsn'] at h
      exact h1 (Option.some.inj h)
    · exact h2 h
  rw [if_neg hcont]
  exact ⟨_, rfl, by simpa using usb2_warning_ext d s, rfl, by simpa using hid⟩

theorem act_on_backup_mem (a : Args) (w : World) (d : Device) (s : State) (temp : String)
    (hid : d.firmware_update_id = some s.update_serial_number)
    (hb : a.backup_arg = some temp) :
    Event.create_flash_backup d ∈ (act_on a w d s).state.out := by
  have hmem : Event.create_flash_backup d ∈ (backup_flash w temp d s).1.out := by
    unfold backup_flash
    cases w.create_flash_backup d with
    | none => simp
    | some flash =>
      dsimp only
      split
      · simp
      · split <;> split <;> simp
  unfold act_on
  simp only [hb]
  split
  · simp only [rs2_error, Flow.state, emit_out]
    exact List.mem_append_left _ hmem
  · split
    · exact (fw_dfu_ext a w d _
        (by rw [backup_flash_update_serial_number]; exact hid)).subset hmem
    · exact hmem

theorem write_fw_to_mipi_device_extends (w : World) (d : Device) (fw : Bytes) (s : State) :
    Ext (fun _ => True) s.out (write_fw_to_mipi_device w d fw s).state.out := by
  unfold write_fw_to_mipi_device
  dsimp only
  split
  · simp only [rs2_error, Flow.state, emit_out, List.append_assoc]
    exact Ext.append _ _ (fun _ _ => trivial)
  · split
    · split <;>
      · simp only [Flow.state, emit_out, List.append_assoc]
        exact Ext.append _ _ (fun _ _ => trivial)
    · simp only [Flow.state, emit_out, List.append_assoc]
      exact Ext.append _ _ (fun _ _ => trivial)

theorem fw_dfu_print_mem (a : Args) (w : World) (d : Device) (s : State) (fw : Bytes)
    (hid : d.firmware_update_id = some s.update_serial_number) (hl : loaded a w fw) :
    Event.print_device_info d ∈ (fw_dfu a w d s).state.out := by
  have hpre : Event.print_device_info d ∈
      ((s.emit (.cout "Updating device FW: ")).emit (.print_device_info d)).out := by simp
  unfold fw_dfu
  rw [show read_firmware_data w a.file_arg.isSome (getValue a.file_arg) = .ok fw from hl]
  dsimp only
  cases hm : is_mipi_device d with
  | none => simp [rs2_error, Flow.state]
  | some m =>
    cases m with
    | true =>
      dsimp only
      split
      · simp [Flow.state]
      · exact (write_fw_to_mipi_device_extends w d fw _).subset hpre
    | false =>
      dsimp only
      split
      · split <;> simp [rs2_error, Flow.state]
      · rename_i hu
        exact (update_signed_ext a w d fw _ hl hm (by simpa using hu)
          (by simpa using hid)).subset hpre

theorem act_on_print_mem (a : Args) (w : World) (d : Device) (s : State) (fw : Bytes)
    (hid : d.firmware_update_id = some s.update_serial_number)
    (hf : a.file_arg.isSome = true) (hl : loaded a w fw)
    (hbk : ∀ temp, a.backup_arg = some temp → (w.create_flash_backup d).isSome = true) :
    Event.print_device_info d ∈ (act_on a w d s).state.out := by
  unfold act_on
  cases hb : a.backup_arg with
  | none =>
    simp only [hf, Bool.not_true, Bool.false_eq_true, if_false, if_true]
    exact fw_dfu_print_mem a w d s fw hid hl
  | some temp =>
    have hok : (backup_flash w temp d s).2 = true := by
      obtain ⟨flash, hfl⟩ := Option.isSome_iff_exists.1 (hbk temp hb)
      unfold backup_flash
      rw [hfl]
      dsimp only
      split
      · rfl
      · split <;> rfl
    simp only [hok, hf, Bool.not_true, Bool.false_eq_true, if_false, if_true]
    exact fw_dfu_print_mem a w d _ fw
      (by rw [backup_flash_update_serial_number]; exact hid) hl

/-- An event that acting on `d` always produces is in the output of the loop, when `d` is
selected and is the only selected device among `ds`. -/
theorem for_each_device_reaches (a : Args) (w : World) (n : Nat) (d : Device) (e : Event)
    (he : ∀ s, d.firmware_update_id = some s.update_serial_number →
      e ∈ (act_on a w d s).state.out)
    (hsel : selected a n d) (ds : List Device) (hd : d ∈ ds)
    (huniq : ∀ x ∈ ds, selected a n x → x = d) (i : Nat) (s : State) :
    e ∈ (for_each_device a w n i ds s).state.out := by
  induction ds generalizing i s with
  | nil => simp at hd
  | cons x ds ih =>
    by_cases hdd : selected a n x
    · have heq : x = d := huniq x (List.mem_cons_self _ _) hdd
      subst heq
      obtain ⟨s₁, hb, -, -, hid⟩ := loop_body_selected a w n i x s hsel
      have hmem : e ∈ (loop_body a w n i x s).state.out := by rw [hb]; exact he s₁ hid
      unfold for_each_device
      cases hf : loop_body a w n i x s with
      | next s₂ =>
        rw [hf] at hmem
        exact (for_each_device_ext a w n ds ds (fun _ h => h) (i + 1) s₂).subset hmem
      | brk s₂ => rw [hf] at hmem; exact hmem
      | ret s₂ code => rw [hf] at hmem; exact hmem
    · obtain ⟨s₁, hb, -, -, -⟩ := loop_body_unselected a w n i x s hdd
      have hd₂ : d ∈ ds := by
        rcases List.mem_cons.1 hd with h | h
        · subst h; exact absurd hsel hdd
        · exact h
      simp only [for_each_device, hb]
      exact ih hd₂ (fun y hy => huniq y (List.mem_cons_of_mem _ hy)) (i + 1) s₁

theorem leave_loop_subset (a : Args) (w : World) (n : Nat) (f : Flow) (e : Event)
    (h : e ∈ f.state.out) : e ∈ (leave_loop a w n f).out := by
  cases f with
  | next s => exact (after_loop_ext a w n s).subset h
  | brk s => exact (after_loop_ext a w n s).subset h
  | ret s code => exact h

/-! ## Selection of the device (C1 to C5) -/

theorem console_acts_on (e : Event) (h : e.is_console = true) : e.acts_on = none := by
  cases e <;> simp_all [Event.is_console, Event.acts_on]

theorem console_touches_device (e : Event) (h : e.is_console = true) :
    e.touches_device = false := by
  cases e <;> simp_all [Event.is_console, Event.touches_device]

theorem acts_on_guarded (a : Args) (w : World) (d x : Device) (e : Event)
    (h : e.acts_on = some d) (hg : guarded a w x e) : d = x := by
  cases e <;> simp_all [Event.acts_on, guarded]

/-- In the update path every call on a device of the enumeration is on a selected one. -/
theorem acts_on_selected (a : Args) (w : World) (hreq : a.update_requested = true)
    (e : Event) (he : e ∈ (main a w).out) (d : Device) (hd : e.acts_on = some d) :
    d ∈ w.query_devices ∧ selected a w.query_devices.length d := by
  rcases main_guarded a w hreq e he with h | ⟨x, hx, hsel, hg⟩
  · rw [console_acts_on e h] at hd; cases hd
  · have := acts_on_guarded a w d x e hd hg
    subst this
    exact ⟨hx, hsel⟩

theorem loaded_file_set (a : Args) (w : World) (fw : Bytes) (h : loaded a w fw) :
    a.file_arg.isSome = true := by
  unfold loaded read_firmware_data at h
  cases hf : a.file_arg.isSome with
  | true => rfl
  | false => simp [hf] at h

/-- Past its three tests on the enumeration the update path is its device loop. -/
theorem update_device_loop (a : Args) (w : World) (out : List Event)
    (h1 : a.serial_number_arg.isSome = true ∨ w.query_devices.length ≤ 1)
    (h2 : w.query_devices.length ≠ 1 ∨
      (w.query_devices.head?.map Device.is_update_device).getD false = false)
    (h3 : w.query_devices.length ≠ 0) :
    update_device a w out = leave_loop a w w.query_devices.length
      (for_each_device a w w.query_devices.length 0 w.query_devices
        (deliver ⟨out, "", none, none, false, false⟩ (w.new_devices .registered))) := by
  unfold update_device
  dsimp only
  have c1 : ¬ ((!a.serial_number_arg.isSome && decide (w.query_devices.length > 1)) = true) := by
    rcases h1 with h | h
    · simp [h]
    · simp; intro _; omega
  have c2 : ¬ ((decide (w.query_devices.length = 1) &&
      (w.query_devices.head?.map Device.is_update_device).getD false) = true) := by
    rcases h2 with h | h
    · simp [h]
    · simp [h]
  rw [if_neg c1, if_neg c2, if_neg h3]

/-- C2, as stated, fails: a camera and a device without the update capability are connected,
no serial number is given and a backup is asked for. The camera is the one eligible device,
yet the run ends with the line about more than one device and fails. -/
theorem one_eligible_counterexample :
    (Args.mk false false false (some "flash.bin") none none).update_requested = true ∧
    (bench [camera 1 "A" "X", plain_device 2]).query_devices.filter
      (fun d => eligible d) = [camera 1 "A" "X"] ∧
    main (Args.mk false false false (some "flash.bin") none none)
      (bench [camera 1 "A" "X", plain_device 2]) =
      ⟨[.cout "More than one device is connected, serial number must be selected"],
        EXIT_FAILURE⟩ := by
  decide

/-- C2, amended: in the update path, when exactly one device is connected, it is eligible and
not in update mode, and no serial number is given, the device is selected: every call on a
connected device (flash backup, MIPI write, unsigned transfer, compatibility check, switch to
update mode) is on it, a backup that is asked for is made on it, and a firmware file that
loads is announced for it (unless the backup throws). -/
theorem single_device_selected (a : Args) (w : World) (d : Device)
    (hreq : a.update_requested = true) (hsn : a.serial_number_arg = none)
    (hdevs : w.query_devices = [d]) (hel : eligible d = true)
    (hupd : d.is_update_device = false) :
    (∀ e ∈ (main a w).out, ∀ x, e.acts_on = some x → x = d) ∧
    (a.backup_arg.isSome = true → Event.create_flash_backup d ∈ (main a w).out) ∧
    (∀ fw, loaded a w fw →
      (∀ temp, a.backup_arg = some temp → (w.create_flash_backup d).isSome = true) →
      Event.print_device_info d ∈ (main a w).out) := by
  have hlen : w.query_devices.length = 1 := by rw [hdevs]; rfl
  have hsel : selected a w.query_devices.length d := ⟨hel, Or.inr hlen⟩
  have hloop := update_device_loop a w (search_out a) (Or.inr (le_of_eq hlen))
    (Or.inr (by rw [hdevs]; simpa using hupd)) (by omega)
  have hreach : ∀ e, (∀ s, d.firmware_update_id = some s.update_serial_number →
      e ∈ (act_on a w d s).state.out) → e ∈ (main a w).out := by
    intro e he
    rw [main_update_path a w hreq, hloop]
    refine leave_loop_subset a w _ _ e ?_
    refine for_each_device_reaches a w _ d e he hsel _ (by rw [hdevs]; simp) ?_ 0 _
    intro x hx _
    rw [hdevs] at hx
    simpa using hx
  refine ⟨?_, ?_, ?_⟩
  · intro e he x hx
    have := (acts_on_selected a w hreq e he x hx).1
    rw [hdevs] at this
    simpa using this
  · intro hb
    obtain ⟨temp, htemp⟩ := Option.isSome_iff_exists.1 hb
    exact hreach _ (fun s hid => act_on_backup_mem a w d s temp hid htemp)
  · intro fw hl hbk
    exact hreach _ (fun s hid =>
      act_on_print_mem a w d s fw hid (loaded_file_set a w fw hl) hl hbk)

/-- One camera, no serial number, a backup path: the theorem of C2 applies and the backup is
made on the camera. -/
theorem single_device_selected_witness :
    (Args.mk false false false (some "flash.bin") none none).update_requested = true ∧
    eligible (camera 1 "A" "X") = true ∧
    Event.create_flash_backup (camera 1 "A" "X") ∈
      (main (Args.mk false false false (some "flash.bin") none none)
        (bench [camera 1 "A" "X"])).out :=
  ⟨by decide, by decide,
    (single_device_selected (Args.mk false false false (some "flash.bin") none none)
      (bench [camera 1 "A" "X"]) (camera 1 "A" "X") (by decide) rfl rfl (by decide)
      rfl).2.1 rfl⟩

/-- Two eligible cameras and no serial number, with a firmware file: the run of C4. -/
theorem ambiguous_without_serial_witness :
    2 ≤ ((bench [camera 1 "A" "X", camera 2 "B" "Y"]).query_devices.filter
      (fun d => eligible d)).length ∧
    main (Args.mk false false false none (some "fw.bin") none)
      (bench [camera 1 "A" "X", camera 2 "B" "Y"]) =
      ⟨[.cout "More than one device is connected, serial number must be selected"],
        EXIT_FAILURE⟩ :=
  ⟨by decide, ambiguous_without_serial (Args.mk false false false none (some "fw.bin") none)
    (bench [camera 1 "A" "X", camera 2 "B" "Y"]) (by decide) rfl (by decide)⟩

/-- A device without the update capability alone, with a firmware file and a serial number:
the run of C3. -/
theorem no_eligible_device_fails_witness :
    (∀ d ∈ (bench [plain_device 2]).query_devices, eligible d = false) ∧
    (main (Args.mk false false false none (some "fw.bin") (some "T1"))
      (bench [plain_device 2])).status = EXIT_FAILURE :=
  ⟨by decide, (no_eligible_device_fails
    (Args.mk false false false none (some "fw.bin") (some "T1")) (bench [plain_device 2])
    (by decide) (by decide)).1⟩

/-- In the update path, when at least two eligible devices are connected and the serial
number given is that of exactly one eligible device `d`: every call on a connected device
(flash backup, MIPI write, unsigned transfer, compatibility check, switch to update mode) is
on `d`, a backup that is asked for is made on `d`, a firmware file that loads is announced for
`d` (unless the backup throws), and the value of `update_serial_number` when the signed update
begins to wait is the firmware-update id of `d`. The signed transfer itself goes to the device
in the update slot, which this statement does not speak of. -/
theorem serial_selects_device (a : Args) (w : World) (sn : String) (d : Device)
    (hreq : a.update_requested = true) (hsn : a.serial_number_arg = some sn)
    (htwo : 2 ≤ (w.query_devices.filter eligible).length)
    (hd : d ∈ w.query_devices) (hel : eligible d = true) (hdsn : d.serial_number = some sn)
    (huniq : ∀ x ∈ w.query_devices, eligible x = true → x.serial_number = some sn → x = d) :
    (∀ e ∈ (main a w).out, ∀ x, e.acts_on = some x → x = d) ∧
    (a.backup_arg.isSome = true → Event.create_flash_backup d ∈ (main a w).out) ∧
    (∀ fw, loaded a w fw →
      (∀ temp, a.backup_arg = some temp → (w.create_flash_backup d).isSome = true) →
      Event.print_device_info d ∈ (main a w).out) ∧
    (∀ usn, Event.wait_for_fw_update_device usn ∈ (main a w).out →
      d.firmware_update_id = some usn) := by
  have hval : getValue a.serial_number_arg = sn := by rw [hsn]; rfl
  have hlen : 2 ≤ w.query_devices.length := le_trans htwo (List.length_filter_le _ _)
  have hsel : selected a w.query_devices.length d := ⟨hel, Or.inl (by rw [hdsn, hval])⟩
  have hone : ∀ x ∈ w.query_devices, selected a w.query_devices.length x → x = d := by
    rintro x hx ⟨hxel, h | h⟩
    · exact huniq x hx hxel (by rw [h, hval])
    · omega
  have hloop := update_device_loop a w (search_out a) (Or.inl (by rw [hsn]; rfl))
    (Or.inl (by omega)) (by omega)
  have hreach : ∀ e, (∀ s, d.firmware_update_id = some s.update_serial_number →
      e ∈ (act_on a w d s).state.out) → e ∈ (main a w).out := by
    intro e he
    rw [main_update_path a w hreq, hloop]
    exact leave_loop_subset a w _ _ e
      (for_each_device_reaches a w _ d e he hsel _ hd hone 0 _)
  refine ⟨?_, ?_, ?_, ?_⟩
  · intro e he x hx
    obtain ⟨hmem, hxsel⟩ := acts_on_selected a w hreq e he x hx
    exact hone x hmem hxsel
  · intro hb
    obtain ⟨temp, htemp⟩ := Option.isSome_iff_exists.1 hb
    exact hreach _ (fun s hid => act_on_backup_mem a w d s temp hid htemp)
  · intro fw hl hbk
    exact hreach _ (fun s hid =>
      act_on_print_mem a w d s fw hid (loaded_file_set a w fw hl) hl hbk)
  · intro usn he
    rcases main_guarded a w hreq _ he with h | ⟨x, hx, hxsel, hg⟩
    · simp [Event.is_console] at h
    · have hxd := hone x hx hxsel
      subst hxd
      exact hg.1

/-- Two cameras, the serial number of the second given, a firmware file: the signed update
waits with the firmware-update id of the second camera. -/
theorem serial_selects_device_witness :
    2 ≤ ((bench [camera 1 "A" "X", camera 2 "B" "Y"]).query_devices.filter eligible).length ∧
    Event.wait_for_fw_update_device "Y" ∈
      (main (Args.mk false false false none (some "fw.bin") (some "B"))
        (bench [camera 1 "A" "X", camera 2 "B" "Y"])).out ∧
    ∀ usn, Event.wait_for_fw_update_device usn ∈
        (main (Args.mk false false false none (some "fw.bin") (some "B"))
          (bench [camera 1 "A" "X", camera 2 "B" "Y"])).out →
      (camera 2 "B" "Y").firmware_update_id = some usn :=
  ⟨by decide, by decide,
    (serial_selects_device (Args.mk false false false none (some "fw.bin") (some "B"))
      (bench [camera 1 "A" "X", camera 2 "B" "Y"]) "B" (camera 2 "B" "Y") (by decide) rfl
      (by decide) (by decide) (by decide) rfl (by decide)).2.2.2⟩

/-- C5 fails on the code. Two cameras are connected and the serial number "B" of the second is
given with a firmware file, so the second camera is the one eligible device with that serial
number. While the loop is at the first camera, a device in update mode that carries the
firmware-update id "X" of the first camera is reported, and nothing is reported afterwards.
The second camera is checked and switched to update mode and the wait begins with its id
"Y"; the wait returns at once on the device reported earlier and the image is transferred to
it, the update identity of the first camera, with exit status success. -/
theorem serial_selects_device_failing_run :
    2 ≤ ((bench_reporting [camera 1 "A" "X", camera 2 "B" "Y"] [[dfu_camera 9 "X"]]
      []).query_devices.filter eligible).length ∧
    (∀ x ∈ (bench_reporting [camera 1 "A" "X", camera 2 "B" "Y"] [[dfu_camera 9 "X"]]
        []).query_devices,
      eligible x = true → x.serial_number = some "B" → x = camera 2 "B" "Y") ∧
    (dfu_camera 9 "X").firmware_update_id = (camera 1 "A" "X").firmware_update_id ∧
    (dfu_camera 9 "X").firmware_update_id ≠ (camera 2 "B" "Y").firmware_update_id ∧
    main (Args.mk false false false none (some "fw.bin") (some "B"))
      (bench_reporting [camera 1 "A" "X", camera 2 "B" "Y"] [[dfu_camera 9 "X"]] []) =
      ⟨[.cout "Search for device with serial number: B", .cout "Updating device FW: ",
        .print_device_info (camera 2 "B" "Y"),
        .check_firmware_compatibility (camera 2 "B" "Y") [1, 2, 3],
        .enter_update_state (camera 2 "B" "Y"), .wait_for_fw_update_device "Y",
        .cout "Firmware update started. Please don't disconnect device!",
        .update (dfu_camera 9 "X") [1, 2, 3], .cout "Firmware update done",
        .cout "Waiting for device to reconnect...",
        .cout "Device B successfully updated to FW: 5.12.7.100"], EXIT_SUCCESS⟩ := by
  decide

/-! ## The firmware image and the MIPI device (C6 to C8) -/

theorem for_each_device_fails (a : Args) (w : World) (n : Nat) (ds : List Device)
    (hbody : ∀ d ∈ ds, ∀ i s, Fails (loop_body a w n i d s) s) (i : Nat) (s : State) :
    Fails (for_each_device a w n i ds s) s := by
  induction ds generalizing i s with
  | nil => exact rfl
  | cons d ds ih =>
    have hb := hbody d (List.mem_cons_self _ _) i s
    unfold for_each_device
    cases hf : loop_body a w n i d s with
    | next s₁ =>
      rw [hf] at hb
      have hrest := ih (fun x hx => hbody x (List.mem_cons_of_mem _ hx)) (i + 1) s₁
      dsimp only
      cases hr : for_each_device a w n (i + 1) ds s₁ with
      | next s₂ => rw [hr] at hrest; exact Eq.trans hrest hb
      | brk s₂ => rw [hr] at hrest; exact hrest
      | ret s₂ code => rw [hr] at hrest; exact hrest
    | brk s₁ => rw [hf] at hb; exact absurd hb id
    | ret s₁ code => rw [hf] at hb; exact hb

/-- When every pass of the loop body is on the way to failure, the update path fails. -/
theorem update_device_fails (a : Args) (w : World) (out : List Event)
    (hbody : ∀ d ∈ w.query_devices, ∀ i s,
      Fails (loop_body a w w.query_devices.length i d s) s) :
    (update_device a w out).status = EXIT_FAILURE := by
  unfold update_device
  dsimp only
  split
  · rfl
  · split
    · rfl
    · split
      · rfl
      · have h := for_each_device_fails a w _ _ hbody 0
          (deliver ⟨out, "", none, none, false, false⟩ (w.new_devices .registered))
        cases hr : for_each_device a w w.query_devices.length 0 w.query_devices
            (deliver ⟨out, "", none, none, false, false⟩ (w.new_devices .registered)) with
        | next s₂ =>
          rw [hr] at h
          have hf : s₂.device_found = false := by simpa [Fails] using h
          unfold leave_loop after_loop
          simp only [hf, Bool.not_false, if_true]
          split
          · rfl
          · split <;> rfl
        | brk s₂ => rw [hr] at h; exact absurd h id
        | ret s₂ code => rw [hr] at h; exact h

theorem loop_body_fails (a : Args) (w : World) (n i : Nat) (d : Device) (s : State)
    (hact : selected a n d → ∀ s, ∃ s', act_on a w d s = .ret s' EXIT_FAILURE) :
    Fails (loop_body a w n i d s) s := by
  by_cases hsel : selected a n d
  · obtain ⟨s₁, hb, -, -, -⟩ := loop_body_selected a w n i d s hsel
    obtain ⟨s₂, hret⟩ := hact hsel s₁
    rw [hb, hret]
    exact rfl
  · obtain ⟨s₁, hb, hfound, -, -⟩ := loop_body_unselected a w n i d s hsel
    rw [hb]
    exact hfound

theorem unreadable_read_fw_file (w : World) (path : String) (h : unreadable w path) :
    read_fw_file w path = [] := by
  unfold read_fw_file
  dsimp only
  rcases h with h | h | h
  · simp [h]
  · simp [h]
  · split
    · split
      · rfl
      · simp [IFStream.buffer, h]
    · rfl

theorem unreadable_not_loaded (a : Args) (w : World)
    (hbad : ∀ path, a.file_arg = some path → unreadable w path) :
    ∃ what, read_firmware_data w a.file_arg.isSome (getValue a.file_arg) = .error what := by
  unfold read_firmware_data
  cases hf : a.file_arg with
  | none => exact ⟨"Firmware file must be selected", by simp⟩
  | some path =>
    have := unreadable_read_fw_file w path (hbad path hf)
    exact ⟨"Failed to read firmware file", by simp [getValue, this]⟩

theorem act_on_unreadable (a : Args) (w : World) (d : Device) (s : State)
    (hf : a.file_arg.isSome = true)
    (hbad : ∀ path, a.file_arg = some path → unreadable w path) :
    ∃ s', act_on a w d s = .ret s' EXIT_FAILURE := by
  obtain ⟨what, hr⟩ := unreadable_not_loaded a w hbad
  unfold act_on
  dsimp only
  split
  · exact ⟨_, rfl⟩
  · unfold fw_dfu
    rw [hr]
    exact ⟨_, rfl⟩

/-- C6, as stated, fails: one camera is connected, a backup path and a firmware file that cannot
be opened are given. The flash backup is made and written before the failure to read the
firmware is raised. -/
theorem unreadable_firmware_counterexample :
    unreadable (bench_unreadable [camera 1 "A" "X"]) "fw.bin" ∧
    main (Args.mk false false false (some "flash.bin") (some "fw.bin") none)
      (bench_unreadable [camera 1 "A" "X"]) =
      ⟨[.cout "Trying to back-up device flash", .create_flash_backup (camera 1 "A" "X"),
        .file_write "flash.bin" [7, 7], .cerr "" "Failed to read firmware file"],
        EXIT_FAILURE⟩ :=
  ⟨Or.inl rfl, by decide⟩

/-- C6, amended: a run that asks for a recovery, or for an update with a firmware file, fails
when the firmware file is unreadable or zero-length (or, in the recovery, not given); the only
calls that reach a device in such a run are, in the update path with a backup path given, the
flash backup of the selected device and the write of the backup file, which precede the
failure to load. No compatibility check, switch to update mode, signed or unsigned transfer
or MIPI write is made. -/
theorem unreadable_firmware_fails (a : Args) (w : World)
    (hlist : a.list_devices_arg = false)
    (hask : a.recover_arg = true ∨ a.file_arg.isSome = true)
    (hbad : ∀ path, a.file_arg = some path → unreadable w path) :
    (main a w).status = EXIT_FAILURE ∧
    ∀ e ∈ (main a w).out, e.touches_device = true →
      a.recover_arg = false ∧ ∃ temp, a.backup_arg = some temp ∧
        ((∃ d, e = .create_flash_backup d) ∨ ∃ data, e = .file_write temp data) := by
  obtain ⟨what, hr⟩ := unreadable_not_loaded a w hbad
  have hnl : ∀ fw, ¬ loaded a w fw := by
    intro fw hl
    unfold loaded at hl
    rw [hr] at hl
    cases hl
  cases hrec : a.recover_arg with
  | true =>
    have hmain : main a w = ⟨[.cout "Nothing to do, run again with -h for help"],
        EXIT_FAILURE⟩ ∨ main a w = ⟨search_out a ++ [.cerr "" what], EXIT_FAILURE⟩ := by
      unfold main
      simp only [hlist, hrec, Bool.not_true, Bool.not_false, Bool.false_and, Bool.and_false,
        Bool.false_eq_true, if_false, if_true]
      split
      · exact Or.inl rfl
      · right
        unfold recover
        rw [hr]
        rfl
    rcases hmain with h | h <;> rw [h]
    · refine ⟨rfl, ?_⟩
      intro e he ht
      rw [List.mem_singleton.1 he] at ht
      cases ht
    · refine ⟨rfl, ?_⟩
      intro e he ht
      rcases List.mem_append.1 he with h' | h'
      · rw [console_touches_device e (search_out_console a e h')] at ht; cases ht
      · rw [List.mem_singleton.1 h'] at ht; cases ht
  | false =>
    have hf : a.file_arg.isSome = true := by
      rcases hask with h | h
      · rw [hrec] at h; cases h
      · exact h
    have hreq : a.update_requested = true := by
      simp [Args.update_requested, hlist, hrec, hf]
    constructor
    · rw [main_update_path a w hreq]
      exact update_device_fails a w _ (fun d _ i s =>
        loop_body_fails a w _ i d s (fun _ s' => act_on_unreadable a w d s' hf hbad))
    · intro e he ht
      refine ⟨rfl, ?_⟩
      rcases main_guarded a w hreq e he with h | ⟨d, -, -, hg⟩
      · rw [console_touches_device e h] at ht; cases ht
      · cases e with
        | create_flash_backup x =>
          obtain ⟨temp, htemp⟩ := Option.isSome_iff_exists.1 hg.2
          exact ⟨temp, htemp, Or.inl ⟨x, rfl⟩⟩
        | file_write path data =>
          rcases hg with h | h
          · exact ⟨path, h.1, Or.inr ⟨data, rfl⟩⟩
          · exact absurd h.2.1 (hnl _)
        | write_fw_to_mipi_device x fw => exact absurd hg.2.1 (hnl _)
        | update_unsigned x fw => exact absurd hg.2.1 (hnl _)
        | check_firmware_compatibility x fw => exact absurd hg.2.1 (hnl _)
        | enter_update_state x =>
          obtain ⟨fw, hl, -⟩ := hg.2.2.2
          exact absurd hl (hnl _)
        | update u fw => exact absurd hg.1 (hnl _)
        | cout t => cases ht
        | cerr f m => cases ht
        | print_device_info x => cases ht
        | list_entry c x => cases ht
        | wait_for_fw_update_device usn => cases ht

/-- One camera and a firmware file that cannot be opened, no backup: the theorem of C6 applies
and the run fails. -/
theorem unreadable_firmware_fails_witness :
    (∀ path, (Args.mk false false false none (some "fw.bin") none).file_arg = some path →
      unreadable (bench_unreadable [camera 1 "A" "X"]) path) ∧
    (main (Args.mk false false false none (some "fw.bin") none)
      (bench_unreadable [camera 1 "A" "X"])).status = EXIT_FAILURE :=
  ⟨fun _ _ => Or.inl rfl,
    (unreadable_firmware_fails (Args.mk false false false none (some "fw.bin") none)
      (bench_unreadable [camera 1 "A" "X"]) rfl (Or.inr rfl) (fun _ _ => Or.inl rfl)).1⟩

theorem act_on_unsigned (a : Args) (w : World) (d : Device) (s : State)
    (hf : a.file_arg.isSome = true) (hu : a.unsigned_arg = true) :
    (∃ s', act_on a w d s = .next s' ∧ is_mipi_device d = some false) ∨
      ∃ s', act_on a w d s = .ret s' EXIT_FAILURE := by
  have hdfu : ∀ s₁, (∃ s', fw_dfu a w d s₁ = .next s' ∧ is_mipi_device d = some false) ∨
      ∃ s', fw_dfu a w d s₁ = .ret s' EXIT_FAILURE := by
    intro s₁
    unfold fw_dfu
    cases read_firmware_data w a.file_arg.isSome (getValue a.file_arg) with
    | error what => exact Or.inr ⟨_, rfl⟩
    | ok fw =>
      dsimp only
      cases hm : is_mipi_device d with
      | none => exact Or.inr ⟨_, rfl⟩
      | some m =>
        cases m with
        | true =>
          dsimp only
          rw [if_pos hu]
          exact Or.inr ⟨_, rfl⟩
        | false =>
          dsimp only
          rw [if_pos hu]
          split
          · exact Or.inr ⟨_, rfl⟩
          · exact Or.inl ⟨_, rfl, rfl⟩
  unfold act_on
  dsimp only
  split
  · exact Or.inr ⟨_, rfl⟩
  · exact hdfu _

theorem for_each_device_unsigned (a : Args) (w : World) (n : Nat)
    (hf : a.file_arg.isSome = true) (hu : a.unsigned_arg = true) (ds : List Device) (i : Nat)
    (s : State) :
    (∃ s', for_each_device a w n i ds s = .ret s' EXIT_FAILURE) ∨
      ∃ s', for_each_device a w n i ds s = .next s' ∧
        ∀ d ∈ ds, selected a n d → is_mipi_device d = some false := by
  induction ds generalizing i s with
  | nil => exact Or.inr ⟨s, rfl, by simp⟩
  | cons d ds ih =>
    unfold for_each_device
    by_cases hsel : selected a n d
    · obtain ⟨s₁, hb, -, -, -⟩ := loop_body_selected a w n i d s hsel
      rcases act_on_unsigned a w d s₁ hf hu with ⟨s₂, hnext, hm⟩ | ⟨s₂, hret⟩
      · rw [hb, hnext]
        rcases ih (i + 1) s₂ with ⟨s₃, h⟩ | ⟨s₃, h, hall⟩
        · exact Or.inl ⟨s₃, h⟩
        · refine Or.inr ⟨s₃, h, ?_⟩
          intro x hx hxsel
          rcases List.mem_cons.1 hx with h' | h'
          · rw [h']; exact hm
          · exact hall x h' hxsel
      · rw [hb, hret]
        exact Or.inl ⟨s₂, rfl⟩
    · obtain ⟨s₁, hb, -, -, -⟩ := loop_body_unselected a w n i d s hsel
      rw [hb]
      rcases ih (i + 1) s₁ with ⟨s₃, h⟩ | ⟨s₃, h, hall⟩
      · exact Or.inl ⟨s₃, h⟩
      · refine Or.inr ⟨s₃, h, ?_⟩
        intro x hx hxsel
        rcases List.mem_cons.1 hx with h' | h'
        · rw [h'] at hxsel; exact absurd hxsel hsel
        · exact hall x h' hxsel

/-- C7: in the update path with a firmware file and the unsigned option set, no MIPI write is
made (`write_fw_to_mipi_device` is not called and the only file written is the backup file),
the device is never switched to update mode, and an unsigned transfer is made only on a device
that `is_mipi_device` does not classify as MIPI; and when a selected device is classified as
MIPI the run fails. -/
theorem mipi_unsigned_rejected (a : Args) (w : World) (hreq : a.update_requested = true)
    (hf : a.file_arg.isSome = true) (hu : a.unsigned_arg = true) :
    (∀ e ∈ (main a w).out,
      (∀ d fw, e ≠ .write_fw_to_mipi_device d fw) ∧
      (∀ d, e ≠ .enter_update_state d) ∧
      (∀ d fw, e = .update_unsigned d fw → is_mipi_device d = some false) ∧
      (∀ path data, e = .file_write path data → a.backup_arg = some path)) ∧
    ((∃ d ∈ w.query_devices, selected a w.query_devices.length d ∧
        is_mipi_device d = some true) → (main a w).status = EXIT_FAILURE) := by
  constructor
  · intro e he
    rcases main_guarded a w hreq e he with h | ⟨x, -, -, hg⟩
    · cases e <;> simp [Event.is_console] at h <;> simp
    · cases e with
      | write_fw_to_mipi_device d fw =>
        have := hg.2.2.2
        rw [hu] at this
        cases this
      | enter_update_state d =>
        have := hg.2.2.1
        rw [hu] at this
        cases this
      | update_unsigned d fw =>
        refine ⟨by simp, by simp, ?_, by simp⟩
        intro d' fw' h
        cases h
        rw [hg.1]
        exact hg.2.2.1
      | file_write path data =>
        refine ⟨by simp, by simp, by simp, ?_⟩
        intro path' data' h
        cases h
        rcases hg with h | h
        · exact h.1
        · have := h.2.2.2
          rw [hu] at this
          cases this
      | cout t => simp
      | cerr f m => simp
      | print_device_info d => simp
      | list_entry c d => simp
      | create_flash_backup d => simp
      | check_firmware_compatibility d fw => simp
      | wait_for_fw_update_device usn => simp
      | update u fw => simp
  · rintro ⟨d, hd, hsel, hm⟩
    rw [main_update_path a w hreq]
    unfold update_device
    dsimp only
    split
    · rfl
    · split
      · rfl
      · split
        · rfl
        · rcases for_each_device_unsigned a w w.query_devices.length hf hu w.query_devices 0
            (deliver ⟨search_out a, "", none, none, false, false⟩
              (w.new_devices .registered)) with ⟨s', h⟩ | ⟨s', -, hall⟩
          · rw [h]; rfl
          · have := hall d hd hsel
            rw [hm] at this
            cases this

/-- A camera on the MIPI connector, a firmware file and the unsigned option: the theorem of C7
applies, and the run fails after the line that only signed firmware is supported. -/
theorem mipi_unsigned_rejected_witness :
    is_mipi_device (mipi_camera 1 "M" "Z") = some true ∧
    main (Args.mk false false true none (some "fw.bin") none)
      (bench [mipi_camera 1 "M" "Z"]) =
      ⟨[.cout "Updating device FW: ", .print_device_info (mipi_camera 1 "M" "Z"),
        .cout "Only signed FW is currently supported for MIPI devices"], EXIT_FAILURE⟩ ∧
    (main (Args.mk false false true none (some "fw.bin") none)
      (bench [mipi_camera 1 "M" "Z"])).status = EXIT_FAILURE :=
  ⟨by decide, by decide,
    (mipi_unsigned_rejected (Args.mk false false true none (some "fw.bin") none)
      (bench [mipi_camera 1 "M" "Z"]) (by decide) rfl rfl).2
      ⟨mipi_camera 1 "M" "Z", by decide, by decide, by decide⟩⟩

/-- C8: `is_mipi_device` answers true exactly when the product id is "ABCD" and the USB type,
taken as "unknown" when the attribute is not supported and as the reported value otherwise, is
"unknown"; for every other product id and USB type it answers false. -/
theorem is_mipi_device_iff (dev : Device) :
    (is_mipi_device dev = some true ↔
      dev.get_info .PRODUCT_ID = some "ABCD" ∧ usb_type_or_unknown dev = "unknown") ∧
    ∀ product_id, dev.get_info .PRODUCT_ID = some product_id →
      is_mipi_device dev =
        some (decide (product_id = "ABCD") && decide (usb_type_or_unknown dev = "unknown")) := by
  have husb : (if dev.supports .USB_TYPE_DESCRIPTOR = true
      then getValue (dev.get_info .USB_TYPE_DESCRIPTOR) else "unknown") =
      usb_type_or_unknown dev := by
    unfold usb_type_or_unknown Device.supports
    cases dev.get_info .USB_TYPE_DESCRIPTOR <;> simp [getValue]
  have hall : ∀ product_id, dev.get_info .PRODUCT_ID = some product_id →
      is_mipi_device dev =
        some (decide (product_id = "ABCD") && decide (usb_type_or_unknown dev = "unknown")) := by
    intro product_id hp
    unfold is_mipi_device
    dsimp only
    rw [hp, husb]
  refine ⟨?_, hall⟩
  constructor
  · intro h
    cases hp : dev.get_info .PRODUCT_ID with
    | none =>
      unfold is_mipi_device at h
      rw [hp] at h
      cases h
    | some product_id =>
      rw [hall product_id hp] at h
      simp only [Option.some.injEq, Bool.and_eq_true, decide_eq_true_eq] at h
      rw [h.1]
      exact ⟨rfl, h.2⟩
  · rintro ⟨hp, hu⟩
    rw [hall "ABCD" hp, hu]
    rfl

/-- The classification of a camera on the MIPI connector and of a camera on USB. -/
theorem is_mipi_device_iff_witness :
    is_mipi_device (mipi_camera 1 "M" "Z") = some true ∧
    is_mipi_device (camera 1 "A" "X") = some false :=
  ⟨(is_mipi_device_iff (mipi_camera 1 "M" "Z")).1.2 ⟨rfl, rfl⟩,
    (is_mipi_device_iff (camera 1 "A" "X")).2 "0B07" rfl⟩

/-! ## The signed update (C9, C10) -/

theorem console_ends_loop (e : Event) (h : e.is_console = true) : e.ends_loop = false := by
  cases e <;> simp_all [Event.is_console, Event.ends_loop]

theorem console_signed_step (e : Event) (h : e.is_console = true) :
    e.signed_step = false := by
  cases e <;> simp_all [Event.is_console, Event.signed_step]

theorem ends_loop_signed_step (e : Event) (h : e.ends_loop = false) :
    e.signed_step = false := by
  cases e <;> simp_all [Event.ends_loop, Event.signed_step]

theorem Steady.quiet {w : World} {devs : List Device} {s s₁ : State}
    (h : Steady w devs s s₁) (hs : ∀ e ∈ s.out, e.ends_loop = false) :
    ∀ e ∈ s₁.out, e.ends_loop = false := by
  intro e he
  rcases h.1.mem he with h' | h'
  · exact hs e h'
  · exact h'

theorem mipi_run_quiet (a : Args) (w : World) (n : Nat) (d : Device) (fw : Bytes) (s : State)
    (hs : ∀ e ∈ s.out, e.signed_step = false) :
    ∀ e ∈ (leave_loop a w n (write_fw_to_mipi_device w d fw s)).out,
      e.signed_step = false := by
  have hnew : Ext (fun e => e.signed_step = false) s.out
      (write_fw_to_mipi_device w d fw s).state.out := by
    unfold write_fw_to_mipi_device
    dsimp only
    split
    · simp only [rs2_error, Flow.state, emit_out, List.append_assoc]
      exact Ext.append _ _ (by simp [Event.signed_step])
    · split
      · split <;>
        · simp only [Flow.state, emit_out, List.append_assoc]
          exact Ext.append _ _ (by simp [Event.signed_step])
      · simp only [Flow.state, emit_out, List.append_assoc]
        exact Ext.append _ _ (by simp [Event.signed_step])
  obtain ⟨s', code, hret⟩ := write_fw_to_mipi_device_ret w d fw s
  rw [hret] at hnew ⊢
  intro e he
  rcases hnew.mem he with h | h
  · exact hs e h
  · exact h

/-- A run of the update path either has no step of the signed update in its output, or ends as
the signed update of a connected device ends, begun in a state whose output has no such step
and whose shared variables are as the loop leaves them. -/
theorem update_run_cases (a : Args) (w : World) (hreq : a.update_requested = true) :
    (∀ e ∈ (main a w).out, e.signed_step = false) ∨
    ∃ d ∈ w.query_devices, ∃ fw s₁, loaded a w fw ∧
      (∀ e ∈ s₁.out, e.ends_loop = false) ∧ Slots w w.query_devices s₁ ∧
      d.firmware_update_id = some s₁.update_serial_number ∧ s₁.device_found = true ∧
      main a w = leave_loop a w w.query_devices.length (update_signed w d fw s₁) := by
  rw [main_update_path a w hreq]
  have hsearch : ∀ e ∈ search_out a, e.ends_loop = false :=
    fun e he => console_ends_loop e (search_out_console a e he)
  rcases update_device_shape a w (search_out a) with ⟨text, h⟩ | ⟨s₁, hst, hcases⟩
  · left
    rw [h]
    intro e he
    rcases List.mem_append.1 he with h' | h'
    · exact ends_loop_signed_step e (hsearch e h')
    · rw [List.mem_singleton.1 h']; rfl
  · obtain ⟨hout, -, hslots⟩ := entry_state w w.query_devices (search_out a)
    have hquiet : ∀ e ∈ s₁.out, e.ends_loop = false :=
      hst.quiet (by rw [hout]; exact hsearch)
    rcases hcases with h | ⟨e', he', h⟩ | ⟨d, hd, fw, hl, h⟩ | ⟨d, hd, fw, hl, hid, hfound, h⟩
    · left
      rw [h]
      intro e he
      rcases (after_loop_ext a w _ s₁).mem he with h' | h'
      · exact ends_loop_signed_step e (hquiet e h')
      · exact console_signed_step e h'
    · left
      rw [h]
      intro e he
      rcases List.mem_append.1 he with h' | h'
      · exact ends_loop_signed_step e (hquiet e h')
      · rw [List.mem_singleton.1 h']; exact console_signed_step e' he'
    · left
      rw [h]
      exact mipi_run_quiet a w _ d fw s₁ (fun e he => ends_loop_signed_step e (hquiet e he))
    · right
      exact ⟨d, hd, fw, s₁, hl, hquiet, hst.2.2.2 hslots, hid, hfound, h⟩

/-- The signed update in two cases: the firmware is not compatible, or the check and the
switch to update mode head what follows. -/
theorem signed_run_summary (a : Args) (w : World) (n : Nat) (d : Device) (fw : Bytes)
    (s : State) (hfound : s.device_found = true) :
    (w.check_firmware_compatibility d fw ≠ some true ∧
      (leave_loop a w n (update_signed w d fw s)).status = EXIT_FAILURE ∧
      ∃ e, e.is_console = true ∧ (leave_loop a w n (update_signed w d fw s)).out =
        s.out ++ [.check_firmware_compatibility d fw, e]) ∨
    (w.check_firmware_compatibility d fw = some true ∧
      ∃ rest, (leave_loop a w n (update_signed w d fw s)).out =
        s.out ++ .check_firmware_compatibility d fw :: .enter_update_state d :: rest ∧
        ∀ e ∈ rest, (∀ x fw', e ≠ .check_firmware_compatibility x fw') ∧
          (∀ x, e ≠ .enter_update_state x)) := by
  rcases signed_run_cases a w n d fw s hfound with
    h | ⟨hc, -, -, hout⟩ | ⟨hc, -, -, -, hout⟩ | ⟨u, hc, -, -, -, -, hout⟩ |
    ⟨u, hc, -, -, -, -, l, hl, hout⟩
  · exact Or.inl h
  · exact Or.inr ⟨hc, _, hout, by simp⟩
  · exact Or.inr ⟨hc, _, hout, by simp⟩
  · exact Or.inr ⟨hc, _, hout, by simp⟩
  · refine Or.inr ⟨hc, [.wait_for_fw_update_device s.update_serial_number,
      .cout "Firmware update started. Please don't disconnect device!", .update u fw,
      .cout "Firmware update done"] ++ l, by rw [hout]; simp, ?_⟩
    intro e he
    rcases List.mem_append.1 he with h | h
    · revert h; simp; rintro (rfl | rfl | rfl | rfl) <;> simp
    · have := hl e h
      cases e <;> simp_all [Event.is_console]

/-- C9: in the update path the switch to update mode is made only right after a compatibility
check of the same device that answered true; and when the compatibility check of a device
does not answer true (it answers false or throws) the run fails and makes no switch to update
mode and no transfer of an image, signed, unsigned or over MIPI. -/
theorem incompatible_firmware_fails (a : Args) (w : World)
    (hreq : a.update_requested = true) :
    (∀ d, Event.enter_update_state d ∈ (main a w).out →
      ∃ fw pre post, (main a w).out =
          pre ++ .check_firmware_compatibility d fw :: .enter_update_state d :: post ∧
        w.check_firmware_compatibility d fw = some true) ∧
    (∀ d fw, Event.check_firmware_compatibility d fw ∈ (main a w).out →
      w.check_firmware_compatibility d fw ≠ some true →
      (main a w).status = EXIT_FAILURE ∧
      ∀ e ∈ (main a w).out, (∀ x, e ≠ .enter_update_state x) ∧ (∀ u fw', e ≠ .update u fw') ∧
        (∀ x fw', e ≠ .update_unsigned x fw') ∧
        (∀ x fw', e ≠ .write_fw_to_mipi_device x fw')) := by
  rcases update_run_cases a w hreq with hq | ⟨d, -, fw, s₁, -, hquiet, -, -, hfound, hrun⟩
  · constructor
    · intro x hx
      have := hq _ hx
      simp [Event.signed_step] at this
    · intro x fw' hx
      have := hq _ hx
      simp [Event.signed_step] at this
  · have hs₁ : ∀ e ∈ s₁.out, (∀ x fw', e ≠ .check_firmware_compatibility x fw') ∧
        (∀ x, e ≠ .enter_update_state x) ∧ (∀ u fw', e ≠ .update u fw') ∧
        (∀ x fw', e ≠ .write_fw_to_mipi_device x fw') := by
      intro e he
      have := hquiet e he
      cases e <;> simp_all [Event.ends_loop]
    rcases signed_run_summary a w w.query_devices.length d fw s₁ hfound with
      ⟨hc, hst, e', he', hout⟩ | ⟨hc, rest, hout, hrest⟩
    · rw [← hrun] at hst hout
      constructor
      · intro x hx
        rw [hout] at hx
        rcases List.mem_append.1 hx with h | h
        · exact absurd rfl ((hs₁ _ h).2.1 x)
        · simp at h
          rw [← h] at he'
          simp [Event.is_console] at he'
      · intro x fw' hx _
        refine ⟨hst, ?_⟩
        have hunsigned : a.unsigned_arg = false := by
          rcases main_guarded a w hreq _ hx with h | ⟨y, -, -, hg⟩
          · simp [Event.is_console] at h
          · exact hg.2.2.2
        intro e he
        have hnu : ∀ y fw'', e ≠ .update_unsigned y fw'' := by
          rintro y fw'' rfl
          rcases main_guarded a w hreq _ he with h | ⟨z, -, -, hg⟩
          · simp [Event.is_console] at h
          · have := hg.2.2.2
            rw [hunsigned] at this
            cases this
        rw [hout] at he
        rcases List.mem_append.1 he with h | h
        · exact ⟨(hs₁ e h).2.1, (hs₁ e h).2.2.1, hnu, (hs₁ e h).2.2.2⟩
        · simp at h
          rcases h with rfl | rfl
          · exact ⟨by simp, by simp, hnu, by simp⟩
          · cases e <;> simp_all [Event.is_console]
    · rw [← hrun] at hout
      constructor
      · intro x hx
        have hxd : x = d := by
          rw [hout] at hx
          rcases List.mem_append.1 hx with h | h
          · exact absurd rfl ((hs₁ _ h).2.1 x)
          · simp at h
            rcases h with h | h
            · exact h
            · exact absurd rfl ((hrest _ h).2 x)
        subst hxd
        exact ⟨fw, s₁.out, rest, hout, hc⟩
      · intro x fw' hx hne
        exfalso
        rw [hout] at hx
        rcases List.mem_append.1 hx with h | h
        · exact (hs₁ _ h).1 x fw' rfl
        · simp at h
          rcases h with ⟨rfl, rfl⟩ | h
          · exact hne hc
          · exact (hrest _ h).1 x fw' rfl

/-- One camera and a firmware file that is not compatible with it: the theorem of C9 applies;
the run fails after the check and its line, without a switch to update mode. -/
theorem incompatible_firmware_fails_witness :
    main (Args.mk false false false none (some "fw.bin") none)
      (bench_incompatible [camera 1 "A" "X"]) =
      ⟨[.cout "Updating device FW: ", .print_device_info (camera 1 "A" "X"),
        .check_firmware_compatibility (camera 1 "A" "X") [1, 2, 3],
        .cout "This firmware version is not compatible with D435"], EXIT_FAILURE⟩ ∧
    (main (Args.mk false false false none (some "fw.bin") none)
      (bench_incompatible [camera 1 "A" "X"])).status = EXIT_FAILURE :=
  ⟨by decide,
    ((incompatible_firmware_fails (Args.mk false false false none (some "fw.bin") none)
      (bench_incompatible [camera 1 "A" "X"]) (by decide)).2 (camera 1 "A" "X") [1, 2, 3]
      (by decide) (by decide)).1⟩

theorem stale_free_slot (w : World) (s : State) (hclean : stale_free w)
    (hs : Slots w w.query_devices s) : s.new_fw_update_device = none := by
  cases hslot : s.new_fw_update_device with
  | none => rfl
  | some u =>
    exfalso
    obtain ⟨hu, ⟨p, hp, batch, hb, hm⟩, hid⟩ := hs.2 u hslot
    obtain ⟨h1, h2⟩ := hclean p hp batch hb u hm hu
    rcases hid with h | ⟨d, hd, hel, h⟩
    · exact h1 h
    · exact h2 d hd hel h

/-- C10 fails on the code. Two cameras are connected and the serial number of the second is
given. While the loop is at the first camera (`update_serial_number` is its id "X") a device
in update mode that carries the id "X" is reported; no device is reported after the second
camera was switched to update mode. The wait returns at once, the image is transferred to the
device reported earlier, whose firmware-update id is not that of the selected camera, and the
run succeeds: no failure 'Failed to locate a device in FW update mode', and a transfer to a
handle that no notification matching the selected device delivered. -/
theorem stale_report_failing_run :
    (bench_reporting [camera 1 "A" "X", camera 2 "B" "Y"] [[dfu_camera 9 "X"]]
      []).new_devices .update_wait = [] ∧
    Event.enter_update_state (camera 2 "B" "Y") ∈
      (main (Args.mk false false false none (some "fw.bin") (some "B"))
        (bench_reporting [camera 1 "A" "X", camera 2 "B" "Y"] [[dfu_camera 9 "X"]] [])).out ∧
    Event.update (dfu_camera 9 "X") [1, 2, 3] ∈
      (main (Args.mk false false false none (some "fw.bin") (some "B"))
        (bench_reporting [camera 1 "A" "X", camera 2 "B" "Y"] [[dfu_camera 9 "X"]] [])).out ∧
    (dfu_camera 9 "X").firmware_update_id ≠ (camera 2 "B" "Y").firmware_update_id ∧
    (main (Args.mk false false false none (some "fw.bin") (some "B"))
      (bench_reporting [camera 1 "A" "X", camera 2 "B" "Y"] [[dfu_camera 9 "X"]]
        [])).status = EXIT_SUCCESS := by
  decide

/-- In the update path, provided no device reported before the wait is a device in update
mode whose firmware-update id is empty or that of an eligible connected device (so that the
update slot is empty when the wait begins): if the device `d` was switched to update mode and
no batch reported during the wait holds a device in update mode with the firmware-update id
of `d`, the run fails, says 'Failed to locate a device in FW update mode' and transfers no
image; and an image is transferred only to a device that a batch reported during the wait
held, that is in update mode and has the firmware-update id of the device switched to update
mode. -/
theorem update_after_matching_report (a : Args) (w : World)
    (hreq : a.update_requested = true) (hclean : stale_free w) :
    (∀ d, Event.enter_update_state d ∈ (main a w).out → w.enter_update_state d = true →
      (∀ batch ∈ w.new_devices .update_wait, ∀ u ∈ batch, u.is_update_device = true →
        u.firmware_update_id ≠ d.firmware_update_id) →
      (main a w).status = EXIT_FAILURE ∧
      Event.cout "Failed to locate a device in FW update mode" ∈ (main a w).out ∧
      ∀ u fw, Event.update u fw ∉ (main a w).out) ∧
    (∀ u fw, Event.update u fw ∈ (main a w).out →
      ∃ d, Event.enter_update_state d ∈ (main a w).out ∧
        (∃ batch ∈ w.new_devices .update_wait, u ∈ batch) ∧ u.is_update_device = true ∧
        u.firmware_update_id = d.firmware_update_id) := by
  rcases update_run_cases a w hreq with hq | ⟨d, -, fw, s₁, -, hquiet, hslots, hid, hfound, hrun⟩
  · constructor
    · intro x hx
      have := hq _ hx
      simp [Event.signed_step] at this
    · intro u fw hx
      have := hq _ hx
      simp [Event.signed_step] at this
  · have hs₁ : ∀ e ∈ s₁.out, (∀ x, e ≠ .enter_update_state x) ∧ (∀ u fw', e ≠ .update u fw') := by
      intro e he
      have := hquiet e he
      cases e <;> simp_all [Event.ends_loop]
    have hempty := stale_free_slot w s₁ hclean hslots
    have hawait : ∀ u, awaited_device w s₁ = some u →
        (∃ batch ∈ w.new_devices .update_wait, u ∈ batch) ∧ u.is_update_device = true ∧
          u.firmware_update_id = d.firmware_update_id := by
      intro u hu
      rcases wait_for_slot _ _ s₁ u hu with h | ⟨hb, h1, h2⟩
      · rw [hempty] at h; cases h
      · exact ⟨hb, h1, by rw [h2, hid]⟩
    rcases signed_run_cases a w w.query_devices.length d fw s₁ hfound with
      ⟨-, -, e', he', hout⟩ | ⟨-, hent, -, hout⟩ | ⟨-, -, -, hst, hout⟩ |
      ⟨u, -, -, hu, -, -, hout⟩ | ⟨u, -, -, hu, -, -, l, hl, hout⟩
    · rw [← hrun] at hout
      constructor
      · intro x hx
        rw [hout] at hx
        rcases List.mem_append.1 hx with h | h
        · exact absurd rfl ((hs₁ _ h).1 x)
        · simp at h
          rw [← h] at he'
          simp [Event.is_console] at he'
      · intro u fw' hx
        rw [hout] at hx
        rcases List.mem_append.1 hx with h | h
        · exact absurd rfl ((hs₁ _ h).2 u fw')
        · simp at h
          rw [← h] at he'
          simp [Event.is_console] at he'
    · rw [← hrun] at hout
      constructor
      · intro x hx hxe
        rw [hout] at hx
        rcases List.mem_append.1 hx with h | h
        · exact absurd rfl ((hs₁ _ h).1 x)
        · simp at h
          rw [h, hent] at hxe
          cases hxe
      · intro u fw' hx
        rw [hout] at hx
        rcases List.mem_append.1 hx with h | h
        · exact absurd rfl ((hs₁ _ h).2 u fw')
        · simp at h
    · rw [← hrun] at hout hst
      constructor
      · intro x _ _ _
        refine ⟨hst, by rw [hout]; simp, ?_⟩
        intro u fw' hx
        rw [hout] at hx
        rcases List.mem_append.1 hx with h | h
        · exact absurd rfl ((hs₁ _ h).2 u fw')
        · simp at h
      · intro u fw' hx
        rw [hout] at hx
        rcases List.mem_append.1 hx with h | h
        · exact absurd rfl ((hs₁ _ h).2 u fw')
        · simp at h
    · rw [← hrun] at hout
      obtain ⟨hb, h1, h2⟩ := hawait u hu
      constructor
      · intro x hx _ hno
        exfalso
        have hxd : x = d := by
          rw [hout] at hx
          rcases List.mem_append.1 hx with h | h
          · exact absurd rfl ((hs₁ _ h).1 x)
          · simpa using h
        obtain ⟨batch, hbm, hum⟩ := hb
        exact hno batch hbm u hum h1 (by rw [hxd]; exact h2)
      · intro u' fw' hx
        have hu' : u' = u := by
          rw [hout] at hx
          rcases List.mem_append.1 hx with h | h
          · exact absurd rfl ((hs₁ _ h).2 u' fw')
          · simp at h
            exact h.1
        subst hu'
        exact ⟨d, by rw [hout]; simp, hb, h1, h2⟩
    · rw [← hrun] at hout
      obtain ⟨hb, h1, h2⟩ := hawait u hu
      have hl' : ∀ e ∈ l, (∀ x, e ≠ .enter_update_state x) ∧ (∀ v fw', e ≠ .update v fw') := by
        intro e he
        have := hl e he
        cases e <;> simp_all [Event.is_console]
      constructor
      · intro x hx _ hno
        exfalso
        have hxd : x = d := by
          rw [hout] at hx
          rcases List.mem_append.1 hx with h | h
          · rcases List.mem_append.1 h with h | h
            · exact absurd rfl ((hs₁ _ h).1 x)
            · simpa using h
          · exact absurd rfl ((hl' _ h).1 x)
        obtain ⟨batch, hbm, hum⟩ := hb
        exact hno batch hbm u hum h1 (by rw [hxd]; exact h2)
      · intro u' fw' hx
        have hu' : u' = u := by
          rw [hout] at hx
          rcases List.mem_append.1 hx with h | h
          · rcases List.mem_append.1 h with h | h
            · exact absurd rfl ((hs₁ _ h).2 u' fw')
            · simp at h
              exact h.1
          · exact absurd rfl ((hl' _ h).2 u' fw')
        subst hu'
        exact ⟨d, by rw [hout]; simp, hb, h1, h2⟩

theorem bench_reporting_stale_free (devs : List Device) (late : List (List Device)) :
    stale_free (bench_reporting devs [] late) := by
  intro p hp batch hb
  cases p with
  | visiting i =>
    cases i <;> simp [bench_reporting, bench] at hb
  | registered => simp [bench_reporting, bench] at hb
  | update_wait => cases hp
  | reconnect_wait => cases hp
  | recovering => cases hp
  | recovery_wait => cases hp

/-- One camera and a firmware file; during the wait only a device in update mode with another
firmware-update id is reported: the run fails with the line about the device in update mode
and transfers nothing. -/
theorem update_after_matching_report_witness :
    stale_free (bench_reporting [camera 1 "A" "X"] [] [[dfu_camera 9 "W"]]) ∧
    (main (Args.mk false false false none (some "fw.bin") none)
      (bench_reporting [camera 1 "A" "X"] [] [[dfu_camera 9 "W"]])).status = EXIT_FAILURE ∧
    Event.cout "Failed to locate a device in FW update mode" ∈
      (main (Args.mk false false false none (some "fw.bin") none)
        (bench_reporting [camera 1 "A" "X"] [] [[dfu_camera 9 "W"]])).out :=
  ⟨bench_reporting_stale_free _ _,
    ((update_after_matching_report (Args.mk false false false none (some "fw.bin") none)
      (bench_reporting [camera 1 "A" "X"] [] [[dfu_camera 9 "W"]]) (by decide)
      (bench_reporting_stale_free _ _)).1 (camera 1 "A" "X") (by decide) rfl
      (by decide)).1,
    ((update_after_matching_report (Args.mk false false false none (some "fw.bin") none)
      (bench_reporting [camera 1 "A" "X"] [] [[dfu_camera 9 "W"]]) (by decide)
      (bench_reporting_stale_free _ _)).1 (camera 1 "A" "X") (by decide) rfl
      (by decide)).2.1⟩

/-! ## After the transfer, the loader and the plain call (C11, C14, C15) -/

/-- C11: in the update path, once the signed transfer of the image has returned (`done` is
set), the run prints 'Firmware update done' and its exit status is success, whatever is or is
not reported during the final wait for the device to reconnect. -/
theorem transfer_done_succeeds (a : Args) (w : World) (hreq : a.update_requested = true)
    (u : Device) (fw : Bytes) (hmem : Event.update u fw ∈ (main a w).out)
    (hdone : w.update u fw = true) :
    (main a w).status = EXIT_SUCCESS ∧
      Event.cout "Firmware update done" ∈ (main a w).out := by
  rcases update_run_cases a w hreq with hq | ⟨d, -, fw₀, s₁, -, hquiet, -, -, hfound, hrun⟩
  · have := hq _ hmem
    simp [Event.signed_step] at this
  · have hs₁ : ∀ e ∈ s₁.out, ∀ v fw', e ≠ .update v fw' := by
      intro e he
      have := hquiet e he
      cases e <;> simp_all [Event.ends_loop]
    rcases signed_run_cases a w w.query_devices.length d fw₀ s₁ hfound with
      ⟨-, -, e', he', hout⟩ | ⟨-, -, -, hout⟩ | ⟨-, -, -, -, hout⟩ |
      ⟨v, -, -, -, hv, -, hout⟩ | ⟨v, -, -, -, -, hst, l, -, hout⟩
    · exfalso
      rw [hrun, hout] at hmem
      rcases List.mem_append.1 hmem with h | h
      · exact hs₁ _ h u fw rfl
      · simp at h
        rw [← h] at he'
        simp [Event.is_console] at he'
    · exfalso
      rw [hrun, hout] at hmem
      rcases List.mem_append.1 hmem with h | h
      · exact hs₁ _ h u fw rfl
      · simp at h
    · exfalso
      rw [hrun, hout] at hmem
      rcases List.mem_append.1 hmem with h | h
      · exact hs₁ _ h u fw rfl
      · simp at h
    · exfalso
      rw [hrun, hout] at hmem
      rcases List.mem_append.1 hmem with h | h
      · exact hs₁ _ h u fw rfl
      · simp at h
        rw [h.1, h.2, hv] at hdone
        cases hdone
    · rw [hrun]
      exact ⟨hst, by rw [hout]; simp⟩

/-- One camera and a firmware file; the camera comes back in update mode during the wait and
nothing is reported during the final wait: the theorem of C11 applies and the run succeeds. -/
theorem transfer_done_succeeds_witness :
    (bench_reporting [camera 1 "A" "X"] [] [[dfu_camera 9 "X"]]).new_devices
      .reconnect_wait = [] ∧
    (main (Args.mk false false false none (some "fw.bin") none)
      (bench_reporting [camera 1 "A" "X"] [] [[dfu_camera 9 "X"]])).status = EXIT_SUCCESS :=
  ⟨rfl, (transfer_done_succeeds (Args.mk false false false none (some "fw.bin") none)
    (bench_reporting [camera 1 "A" "X"] [] [[dfu_camera 9 "X"]]) (by decide)
    (dfu_camera 9 "X") [1, 2, 3] (by decide) rfl).1⟩

/-- C14: `read_fw_file` yields the complete contents of the file, when the file opened and
the stream (which keeps the contract of `read`) is good after the read, and an empty buffer
otherwise; `read_firmware_data` fails exactly when `is_set` is false or `read_fw_file` yields
the empty buffer, and otherwise returns what `read_fw_file` yields, which is not empty. -/
theorem loader_complete_or_empty (w : World) :
    (∀ path, stream_sound w path →
      read_fw_file w path =
        if (w.ifstream path).is_open = true ∧ (w.ifstream path).good = true
        then (w.ifstream path).contents else []) ∧
    (∀ is_set path, (∃ what, read_firmware_data w is_set path = .error what) ↔
      (is_set = false ∨ read_fw_file w path = [])) ∧
    (∀ is_set path fw, read_firmware_data w is_set path = .ok fw →
      fw = read_fw_file w path ∧ fw ≠ []) := by
  refine ⟨?_, ?_, ?_⟩
  · intro path hsound
    unfold read_fw_file
    dsimp only
    cases ho : (w.ifstream path).is_open with
    | false => simp
    | true =>
      cases hg : (w.ifstream path).good with
      | false => simp
      | true =>
        have := hsound hg
        simp [IFStream.buffer, this]
  · intro is_set path
    unfold read_firmware_data
    cases is_set with
    | false => simp
    | true =>
      by_cases h : read_fw_file w path = []
      · simp [h]
      · have hlen : (read_fw_file w path).length ≠ 0 := by
          intro h0
          exact h (List.length_eq_zero.1 h0)
        simp [h, hlen]
  · intro is_set path fw h
    unfold read_firmware_data at h
    cases is_set with
    | false => simp at h
    | true =>
      by_cases h0 : (read_fw_file w path).length = 0
      · simp [h0] at h
      · simp [h0] at h
        subst h
        exact ⟨rfl, fun hnil => h0 (by rw [hnil]; rfl)⟩

/-- The file of the world `bench` loads as its three bytes. -/
theorem loader_complete_or_empty_witness :
    stream_sound (bench []) "fw.bin" ∧ read_fw_file (bench []) "fw.bin" = [1, 2, 3] ∧
    read_firmware_data (bench []) true "fw.bin" = .ok [1, 2, 3] :=
  ⟨fun _ => rfl,
    ((loader_complete_or_empty (bench [])).1 "fw.bin" (fun _ => rfl)).trans rfl, rfl⟩

/-- C15, as stated, fails: run with no flag set and no device connected, `main` prints the hint
and the line about no connected devices and its exit status is success. -/
theorem no_action_counterexample :
    main (Args.mk false false false none none none) (bench []) =
      ⟨[.cout "Nothing to do, run again with -h for help",
        .cout "There are no connected devices"], EXIT_SUCCESS⟩ ∧
    EXIT_SUCCESS = 0 := by
  decide

/-- C15, amended: run with no flag set, `main` prints the hint, lists the devices and its exit
status is success, whether or not devices are connected; with no device connected the output
is the hint and the line 'There are no connected devices'. -/
theorem no_action_succeeds (w : World) :
    (main (Args.mk false false false none none none) w).status = EXIT_SUCCESS ∧
    (w.query_all_devices = [] →
      (main (Args.mk false false false none none none) w).out =
        [.cout "Nothing to do, run again with -h for help",
          .cout "There are no connected devices"]) := by
  constructor
  · rfl
  · intro h
    simp [main, list_devices, h]

/-- No flag set and no device connected: the theorem of C15 applies and the run succeeds. -/
theorem no_action_succeeds_witness :
    (bench []).query_all_devices = [] ∧
    (main (Args.mk false false false none none none) (bench [])).status = EXIT_SUCCESS :=
  ⟨rfl, (no_action_succeeds (bench [])).1⟩

/-! ## The recovery path (C12, C13) -/

theorem main_recover_path (a : Args) (w : World) (hlist : a.list_devices_arg = false)
    (hrec : a.recover_arg = true) (hf : a.file_arg.isSome = true) :
    main a w = recover a w (search_out a) := by
  unfold main search_out
  simp [hlist, hrec, hf]

/-- The loop of the recovery path picks the one candidate, fails to pick among several, and
keeps what it holds when there is none. -/
theorem find_recovery_device_eq (sel : String) (ds : List Device)
    (hwf : ∀ d ∈ ds, d.is_update_device = true → d.firmware_update_id.isSome = true)
    (r : Option Device) :
    find_recovery_device sel ds r =
      match r, ds.filter (fun d => d.is_update_device &&
          (sel.isEmpty || decide (d.firmware_update_id = some sel))) with
      | none, [] => .finished none
      | none, [d] => .finished (some d)
      | none, _ :: _ :: _ => .ambiguous
      | some x, [] => .finished (some x)
      | some _, _ :: _ => .ambiguous := by
  induction ds generalizing r with
  | nil => cases r <;> rfl
  | cons d ds ih =>
    have ih' := ih (fun x hx => hwf x (List.mem_cons_of_mem _ hx))
    unfold find_recovery_device
    cases hu : d.is_update_device with
    | false =>
      simp only [Bool.not_false, if_true, List.filter_cons, hu, Bool.false_and,
        Bool.false_eq_true, if_false]
      exact ih' r
    | true =>
      obtain ⟨id, hid⟩ := Option.isSome_iff_exists.1 (hwf d (List.mem_cons_self _ _) hu)
      have hid' : d.get_info .FIRMWARE_UPDATE_ID = some id := hid
      simp only [Bool.not_true, Bool.false_eq_true, if_false, hid', List.filter_cons, hu,
        Bool.true_and, hid]
      by_cases hskip : (!sel.isEmpty && decide (id ≠ sel)) = true
      · have hno : (sel.isEmpty || decide (some id = some sel)) = false := by
          simp only [Bool.and_eq_true, Bool.not_eq_true', decide_eq_true_eq] at hskip
          simp [hskip.1, hskip.2]
        rw [if_pos hskip, hno]
        simp only [Bool.false_eq_true, if_false]
        exact ih' r
      · have hyes : (sel.isEmpty || decide (some id = some sel)) = true := by
          simp only [Bool.and_eq_true, Bool.not_eq_true', decide_eq_true_eq, not_and,
            Decidable.not_not] at hskip
          cases he : sel.isEmpty with
          | true => simp
          | false => simp [hskip he]
        rw [if_neg hskip, hyes]
        simp only [if_true]
        cases r with
        | some x =>
          simp
        | none =>
          simp only [Option.isSome_none, Bool.false_eq_true, if_false]
          rw [ih' (some d)]
          cases ds.filter (fun d => d.is_update_device &&
            (sel.isEmpty || decide (d.firmware_update_id = some sel))) <;> rfl

theorem recovery_candidates_scan (a : Args) (w : World)
    (hwf : ∀ d ∈ w.query_devices, d.is_update_device = true →
      d.firmware_update_id.isSome = true) :
    find_recovery_device (getValue a.serial_number_arg) w.query_devices none =
      match recovery_candidates a w with
      | [] => .finished none
      | [d] => .finished (some d)
      | _ :: _ :: _ => .ambiguous := by
  rw [find_recovery_device_eq _ _ hwf none]
  unfold recovery_candidates
  rcases List.filter _ w.query_devices with _ | ⟨x, _ | ⟨y, l⟩⟩ <;> rfl

theorem recovery_callback_true (usn : String) (batch : List Device) :
    recovery_callback usn batch true = true := by
  induction batch with
  | nil => rfl
  | cons d ds ih =>
    unfold recovery_callback
    split
    · exact ih
    · split
      · rfl
      · split
        · rfl
        · exact ih

theorem deliver_recovery_true (usn : String) (batches : List (List Device)) :
    deliver_recovery usn true batches = true := by
  induction batches with
  | nil => rfl
  | cons b bs ih =>
    simp only [deliver_recovery, List.foldl_cons, recovery_callback_true] at ih ⊢
    exact ih

theorem deliver_recovery_iff (usn : String) (batches : List (List Device)) :
    deliver_recovery usn false batches = true ↔
      ∃ batch ∈ batches, recovery_callback usn batch false = true := by
  induction batches with
  | nil => simp [deliver_recovery]
  | cons b bs ih =>
    cases hb : recovery_callback usn b false with
    | true =>
      have : deliver_recovery usn false (b :: bs) = true := by
        simp only [deliver_recovery, List.foldl_cons, hb]
        exact deliver_recovery_true usn bs
      simp [this, hb]
    | false =>
      have : deliver_recovery usn false (b :: bs) = deliver_recovery usn false bs := by
        simp only [deliver_recovery, List.foldl_cons, hb]
      rw [this, ih]
      simp [hb]

/-- The flag is set by a batch only if the batch holds a device in normal identity with the
awaited firmware-update id. -/
theorem recovery_callback_sound (usn : String) (batch : List Device)
    (h : recovery_callback usn batch false = true) :
    ∃ x ∈ batch, recovered_device usn x := by
  induction batch with
  | nil => cases h
  | cons d ds ih =>
    unfold recovery_callback at h
    cases hu : d.is_update_device with
    | true =>
      simp only [hu, if_true] at h
      obtain ⟨x, hx, hr⟩ := ih h
      exact ⟨x, List.mem_cons_of_mem _ hx, hr⟩
    | false =>
      simp only [hu, Bool.false_eq_true, if_false] at h
      cases hid : d.get_info .FIRMWARE_UPDATE_ID with
      | none => rw [hid] at h; cases h
      | some id =>
        rw [hid] at h
        dsimp only at h
        by_cases heq : id = usn
        · exact ⟨d, List.mem_cons_self _ _, hu, by rw [← heq]; exact hid⟩
        · rw [if_neg heq] at h
          obtain ⟨x, hx, hr⟩ := ih h
          exact ⟨x, List.mem_cons_of_mem _ hx, hr⟩

/-- The flag is set by a batch that holds a device in normal identity with the awaited
firmware-update id, when the devices in normal identity of the batch expose such an id. -/
theorem recovery_callback_complete (usn : String) (batch : List Device)
    (hwf : ∀ x ∈ batch, x.is_update_device = false → x.firmware_update_id.isSome = true)
    (h : ∃ x ∈ batch, recovered_device usn x) :
    recovery_callback usn batch false = true := by
  induction batch with
  | nil => simp at h
  | cons d ds ih =>
    have ih' := ih (fun x hx => hwf x (List.mem_cons_of_mem _ hx))
    unfold recovery_callback
    cases hu : d.is_update_device with
    | true =>
      simp only [if_true]
      obtain ⟨x, hx, hr⟩ := h
      rcases List.mem_cons.1 hx with hxd | hxd
      · rw [hxd] at hr
        rw [hr.1] at hu
        cases hu
      · exact ih' ⟨x, hxd, hr⟩
    | false =>
      obtain ⟨id, hid⟩ := Option.isSome_iff_exists.1 (hwf d (List.mem_cons_self _ _) hu)
      have hid' : d.get_info .FIRMWARE_UPDATE_ID = some id := hid
      simp only [Bool.false_eq_true, if_false, hid']
      by_cases heq : id = usn
      · rw [if_pos heq]
      · rw [if_neg heq]
        obtain ⟨x, hx, hr⟩ := h
        rcases List.mem_cons.1 hx with hxd | hxd
        · rw [hxd] at hr
          rw [hr.2] at hid
          exact absurd (Option.some.inj hid).symm heq
        · exact ih' ⟨x, hxd, hr⟩

/-- The run of the recovery path once the firmware is loaded and the device `d` is picked. -/
theorem recover_selected (a : Args) (w : World) (out : List Event) (fw : Bytes) (d : Device)
    (usn : String) (hl : loaded a w fw)
    (hscan : find_recovery_device (getValue a.serial_number_arg) w.query_devices none =
      .finished (some d))
    (hid : d.get_info .FIRMWARE_UPDATE_ID = some usn) :
    ∃ tail, (∀ e ∈ tail, e.is_console = true) ∧
      (recover a w out).out = out ++ [.cout ("Update to FW: " ++ getValue a.file_arg),
        .cout "Recovering device: ", .print_device_info d,
        .cout "Firmware update started. Please don't disconnect device!", .update d fw]
        ++ tail ∧
      (w.update d fw = true →
        (recovered w usn = true → (recover a w out).status = EXIT_SUCCESS ∧
          Event.cout "Recovery done" ∈ (recover a w out).out) ∧
        (recovered w usn = false → (recover a w out).status = EXIT_FAILURE ∧
          Event.cout "... timed out!" ∈ (recover a w out).out)) := by
  unfold recover
  rw [show read_firmware_data w a.file_arg.isSome (getValue a.file_arg) = .ok fw from hl]
  simp only [hscan, hid, update, recovered]
  cases hupd : w.update d fw with
  | false =>
    exact ⟨[.cout "Failed to recover device"], by simp [Event.is_console], by simp,
      fun h => by cases h⟩
  | true =>
    cases h1 : deliver_recovery usn false (w.new_devices .recovering) with
    | true =>
      refine ⟨[.cout "Firmware update done", .cout "Waiting for new device...",
        .cout "Recovery done"], by simp [Event.is_console], by simp, fun _ => ⟨?_, ?_⟩⟩
      · intro _
        simp
      · intro h
        simp at h
    | false =>
      cases h2 : deliver_recovery usn false (w.new_devices .recovery_wait) with
      | true =>
        refine ⟨[.cout "Firmware update done", .cout "Waiting for new device...",
          .cout "Recovery done"], by simp [Event.is_console], by simp, fun _ => ⟨?_, ?_⟩⟩
        · intro _
          simp
        · intro h
          simp at h
      | false =>
        refine ⟨[.cout "Firmware update done", .cout "Waiting for new device...",
          .cout "... timed out!"], by simp [Event.is_console], by simp, fun _ => ⟨?_, ?_⟩⟩
        · intro h
          simp at h
        · intro _
          simp

/-- C12: in the recovery path, once the firmware file is loaded, with the devices in update
mode of the enumeration exposing a firmware-update id: when no device is a candidate the run
fails, saying 'No recovery devices were found!'; when two or more are (in particular with no
serial number given) the run fails, saying that more than one recovery device is connected;
in both cases no call reaches a device. When exactly one device is a candidate the image is
transferred to it, and no other call reaches a device. -/
theorem recovery_selection (a : Args) (w : World) (fw : Bytes)
    (hlist : a.list_devices_arg = false) (hrec : a.recover_arg = true)
    (hl : loaded a w fw)
    (hwf : ∀ d ∈ w.query_devices, d.is_update_device = true →
      d.firmware_update_id.isSome = true) :
    (recovery_candidates a w = [] →
      (main a w).status = EXIT_FAILURE ∧
      Event.cout "No recovery devices were found!" ∈ (main a w).out ∧
      ∀ e ∈ (main a w).out, e.touches_device = false) ∧
    (2 ≤ (recovery_candidates a w).length →
      (main a w).status = EXIT_FAILURE ∧
      Event.cout "More than one recovery device is connected; serial number must be specified"
        ∈ (main a w).out ∧
      ∀ e ∈ (main a w).out, e.touches_device = false) ∧
    (∀ d, recovery_candidates a w = [d] →
      Event.update d fw ∈ (main a w).out ∧
      ∀ e ∈ (main a w).out, e.touches_device = true → e = .update d fw) := by
  have hmain := main_recover_path a w hlist hrec (loaded_file_set a w fw hl)
  have hscan := recovery_candidates_scan a w hwf
  have hread : read_firmware_data w a.file_arg.isSome (getValue a.file_arg) = .ok fw := hl
  have hquiet : ∀ (text : String) (e : Event),
      e ∈ search_out a ++ [.cout ("Update to FW: " ++ getValue a.file_arg)] ++ [.cout text] →
      e.touches_device = false := by
    intro text e he
    rcases List.mem_append.1 he with h | h
    · rcases List.mem_append.1 h with h | h
      · exact console_touches_device e (search_out_console a e h)
      · rw [List.mem_singleton.1 h]; rfl
    · rw [List.mem_singleton.1 h]; rfl
  refine ⟨?_, ?_, ?_⟩
  · intro hc
    rw [hc] at hscan
    have hrun : main a w = ⟨search_out a ++ [.cout ("Update to FW: " ++ getValue a.file_arg)]
        ++ [.cout "No recovery devices were found!"], EXIT_FAILURE⟩ := by
      rw [hmain]
      unfold recover
      rw [hread]
      simp only [hscan]
    rw [hrun]
    exact ⟨rfl, by simp, hquiet _⟩
  · intro hc
    have hamb : find_recovery_device (getValue a.serial_number_arg) w.query_devices none =
        .ambiguous := by
      rw [hscan]
      rcases hcs : recovery_candidates a w with _ | ⟨x, _ | ⟨y, l⟩⟩
      · rw [hcs] at hc; simp at hc
      · rw [hcs] at hc; simp at hc
      · rfl
    have hrun : main a w = ⟨search_out a ++ [.cout ("Update to FW: " ++ getValue a.file_arg)]
        ++ [.cout "More than one recovery device is connected; serial number must be specified"],
        EXIT_FAILURE⟩ := by
      rw [hmain]
      unfold recover
      rw [hread]
      simp only [hamb]
      rfl
    rw [hrun]
    exact ⟨rfl, by simp, hquiet _⟩
  · intro d hc
    rw [hc] at hscan
    have hd : d ∈ recovery_candidates a w := by rw [hc]; exact List.mem_singleton.2 rfl
    unfold recovery_candidates at hd
    obtain ⟨hmem, hp⟩ := List.mem_filter.1 hd
    have hu : d.is_update_device = true := by
      simp only [Bool.and_eq_true] at hp
      exact hp.1
    obtain ⟨usn, hid⟩ := Option.isSome_iff_exists.1 (hwf d hmem hu)
    obtain ⟨tail, htail, hout, -⟩ := recover_selected a w (search_out a) fw d usn hl hscan hid
    rw [hmain, hout]
    refine ⟨by simp, ?_⟩
    intro e he ht
    rcases List.mem_append.1 he with h | h
    · rcases List.mem_append.1 h with h | h
      · rw [console_touches_device e (search_out_console a e h)] at ht; cases ht
      · simp only [List.mem_cons, List.mem_singleton, List.not_mem_nil, or_false] at h
        rcases h with rfl | rfl | rfl | rfl | rfl
        · cases ht
        · cases ht
        · cases ht
        · cases ht
        · rfl
    · rw [console_touches_device e (htail e h)] at ht; cases ht

/-- One camera in update mode, the recovery asked for with a firmware file: the theorem of C12
applies and the image is transferred to that camera. -/
theorem recovery_selection_witness :
    recovery_candidates (Args.mk false true false none (some "fw.bin") none)
      (bench [camera 1 "A" "X", dfu_camera 9 "Y"]) = [dfu_camera 9 "Y"] ∧
    Event.update (dfu_camera 9 "Y") [1, 2, 3] ∈
      (main (Args.mk false true false none (some "fw.bin") none)
        (bench [camera 1 "A" "X", dfu_camera 9 "Y"])).out :=
  ⟨by decide,
    ((recovery_selection (Args.mk false true false none (some "fw.bin") none)
      (bench [camera 1 "A" "X", dfu_camera 9 "Y"]) [1, 2, 3] rfl rfl rfl
      (by decide)).2.2 (dfu_camera 9 "Y") (by decide)).1⟩

/-- For batches whose devices in normal identity all expose a firmware-update id: the
callback of the recovery path sets the flag on a batch exactly when the batch holds a device
in normal identity whose firmware-update id is that of the device being recovered. Once the
image is transferred to the one candidate, the run succeeds and says 'Recovery done' when such
a batch is reported during the wait, or was reported while the image was transferred, and
fails, saying '... timed out!', when no such batch is reported until the wait is over. -/
theorem recovery_done_iff (a : Args) (w : World) (fw : Bytes) (d : Device) (usn : String)
    (hlist : a.list_devices_arg = false) (hrec : a.recover_arg = true)
    (hl : loaded a w fw)
    (hwf : ∀ x ∈ w.query_devices, x.is_update_device = true →
      x.firmware_update_id.isSome = true)
    (hcand : recovery_candidates a w = [d]) (hid : d.firmware_update_id = some usn)
    (hupd : w.update d fw = true)
    (hnew : ∀ p, p = Point.recovering ∨ p = Point.recovery_wait →
      ∀ batch ∈ w.new_devices p, ∀ x ∈ batch, x.is_update_device = false →
        x.firmware_update_id.isSome = true) :
    (∀ batch, (∀ x ∈ batch, x.is_update_device = false → x.firmware_update_id.isSome = true) →
      (recovery_callback usn batch false = true ↔ ∃ x ∈ batch, recovered_device usn x)) ∧
    ((∃ batch ∈ w.new_devices .recovery_wait, ∃ x ∈ batch, recovered_device usn x) →
      (main a w).status = EXIT_SUCCESS ∧ Event.cout "Recovery done" ∈ (main a w).out) ∧
    ((∃ batch ∈ w.new_devices .recovering, ∃ x ∈ batch, recovered_device usn x) →
      (main a w).status = EXIT_SUCCESS ∧ Event.cout "Recovery done" ∈ (main a w).out) ∧
    ((∀ p, p = Point.recovering ∨ p = Point.recovery_wait →
        ∀ batch ∈ w.new_devices p, ∀ x ∈ batch, ¬ recovered_device usn x) →
      (main a w).status = EXIT_FAILURE ∧ Event.cout "... timed out!" ∈ (main a w).out) := by
  have hmain := main_recover_path a w hlist hrec (loaded_file_set a w fw hl)
  have hscan := recovery_candidates_scan a w hwf
  rw [hcand] at hscan
  obtain ⟨tail, -, -, hrun⟩ := recover_selected a w (search_out a) fw d usn hl hscan hid
  obtain ⟨hyes, hno⟩ := hrun hupd
  rw [← hmain] at hyes hno
  have hset : ∀ p, p = Point.recovering ∨ p = Point.recovery_wait →
      (deliver_recovery usn false (w.new_devices p) = true ↔
        ∃ batch ∈ w.new_devices p, ∃ x ∈ batch, recovered_device usn x) := by
    intro p hp
    rw [deliver_recovery_iff]
    constructor
    · rintro ⟨batch, hb, h⟩
      exact ⟨batch, hb, recovery_callback_sound usn batch h⟩
    · rintro ⟨batch, hb, h⟩
      exact ⟨batch, hb, recovery_callback_complete usn batch (hnew p hp batch hb) h⟩
  refine ⟨?_, ?_, ?_, ?_⟩
  · intro batch hb
    exact ⟨recovery_callback_sound usn batch, recovery_callback_complete usn batch hb⟩
  · intro h
    apply hyes
    unfold recovered
    rw [(hset _ (Or.inr rfl)).2 h]
    simp
  · intro h
    apply hyes
    unfold recovered
    rw [(hset _ (Or.inl rfl)).2 h]
    simp
  · intro h
    apply hno
    unfold recovered
    have h1 : deliver_recovery usn false (w.new_devices .recovering) = false := by
      cases hc : deliver_recovery usn false (w.new_devices .recovering) with
      | false => rfl
      | true =>
        obtain ⟨batch, hb, x, hx, hr⟩ := (hset _ (Or.inl rfl)).1 hc
        exact absurd hr (h _ (Or.inl rfl) batch hb x hx)
    have h2 : deliver_recovery usn false (w.new_devices .recovery_wait) = false := by
      cases hc : deliver_recovery usn false (w.new_devices .recovery_wait) with
      | false => rfl
      | true =>
        obtain ⟨batch, hb, x, hx, hr⟩ := (hset _ (Or.inr rfl)).1 hc
        exact absurd hr (h _ (Or.inr rfl) batch hb x hx)
    rw [h1, h2]
    rfl

theorem bench_recovering_exposes (devs : List Device) (during late : List (List Device))
    (hduring : ∀ batch ∈ during, ∀ x ∈ batch, x.is_update_device = false →
      x.firmware_update_id.isSome = true)
    (hlate : ∀ batch ∈ late, ∀ x ∈ batch, x.is_update_device = false →
      x.firmware_update_id.isSome = true) :
    ∀ p, p = Point.recovering ∨ p = Point.recovery_wait →
      ∀ batch ∈ (bench_recovering devs during late).new_devices p, ∀ x ∈ batch,
        x.is_update_device = false → x.firmware_update_id.isSome = true := by
  rintro p (rfl | rfl)
  · exact hduring
  · exact hlate

/-- One camera in update mode is recovered and comes back in normal identity, with the same
firmware-update id, during the wait: the run succeeds. -/
theorem recovery_done_iff_witness :
    recovered_device "Y" (camera 1 "A" "Y") ∧
    (main (Args.mk false true false none (some "fw.bin") none)
      (bench_recovering [dfu_camera 9 "Y"] [] [[camera 1 "A" "Y"]])).status = EXIT_SUCCESS ∧
    Event.cout "Recovery done" ∈
      (main (Args.mk false true false none (some "fw.bin") none)
        (bench_recovering [dfu_camera 9 "Y"] [] [[camera 1 "A" "Y"]])).out :=
  ⟨by decide,
    (recovery_done_iff (Args.mk false true false none (some "fw.bin") none)
      (bench_recovering [dfu_camera 9 "Y"] [] [[camera 1 "A" "Y"]]) [1, 2, 3]
      (dfu_camera 9 "Y") "Y" rfl rfl rfl (by decide) (by decide) rfl rfl
      (bench_recovering_exposes _ _ _ (by decide) (by decide))).2.1
      ⟨[camera 1 "A" "Y"], by decide, camera 1 "A" "Y", by decide, by decide⟩⟩

/-- C13 fails on the code. One camera in update mode, with the firmware-update id "Y", is
recovered. During the wait one batch is reported that holds a device in normal identity
without a firmware-update id and, after it, the camera back in normal identity with the id
"Y". The callback reads the id of the first device without asking `supports`, the read
throws and ends the callback: the flag is not set although the batch holds the device waited
for, and the run times out and fails. With the two devices in the other order the flag is
set. -/
theorem recovery_callback_failing_run :
    recovered_device "Y" (camera 1 "A" "Y") ∧
    (plain_device 2).is_update_device = false ∧
    (plain_device 2).supports .FIRMWARE_UPDATE_ID = false ∧
    recovery_callback "Y" [plain_device 2, camera 1 "A" "Y"] false = false ∧
    recovery_callback "Y" [camera 1 "A" "Y", plain_device 2] false = true ∧
    main (Args.mk false true false none (some "fw.bin") none)
      (bench_recovering [dfu_camera 9 "Y"] [] [[plain_device 2, camera 1 "A" "Y"]]) =
      ⟨[.cout "Update to FW: fw.bin", .cout "Recovering device: ",
        .print_device_info (dfu_camera 9 "Y"),
        .cout "Firmware update started. Please don't disconnect device!",
        .update (dfu_camera 9 "Y") [1, 2, 3], .cout "Firmware update done",
        .cout "Waiting for new device...", .cout "... timed out!"], EXIT_FAILURE⟩ := by
  decide

/-! ## The backup and the flash (C16) -/

@[simp] theorem prepend_new_device (l : List Event) (s : State) :
    (s.prepend l).new_device = s.new_device := rfl

end FwUpdate
